import Mathlib

/-!
Shallow embedding of the simulation core of the memphlus repository
(a 2D platformer: ECS world, rapier-backed physics, morphs, triggers,
checkpoints, camera tracking and frame interpolation).

Scalar quantities (`f32` in the source) are embedded as rationals; machine
floats carry no overflow semantics relevant to the verified claims, which are
all about the algebraic/control structure of the code.  Physics spatial
queries (`intersection_with_shape`) never mutate state in the source, so each
tick receives their results through an explicit environment record.  The
`rapier2d` physics step is external to the repository and is modelled as an
abstract function on rigid-body state.
-/

/-- 2D vector over ℚ, embedding `tetra::math::Vec2<f32>` (= `vek::Vec2`). -/
@[ext]
structure Vec2 where
  x : ℚ
  y : ℚ
deriving DecidableEq

namespace Vec2

/-- Componentwise addition. -/
def add (a b : Vec2) : Vec2 := ⟨a.x + b.x, a.y + b.y⟩

/-- Scalar multiplication. -/
def scale (a : Vec2) (k : ℚ) : Vec2 := ⟨a.x * k, a.y * k⟩

/-- Squared magnitude (`magnitude_squared`). -/
def magnitude_squared (a : Vec2) : ℚ := a.x * a.x + a.y * a.y

/-- Unclamped linear interpolation, componentwise `from + (to - from) * factor`
(the formula of the repository's `Lerp` trait in `src/interpolation.rs`). -/
def lerp_unclamped (a b : Vec2) (t : ℚ) : Vec2 :=
  ⟨a.x + (b.x - a.x) * t, a.y + (b.y - a.y) * t⟩

/-- `vek`'s `Vec2::lerp`, which clamps the factor into [0, 1] before blending. -/
def lerp (a b : Vec2) (t : ℚ) : Vec2 :=
  lerp_unclamped a b (min (max t 0) 1)

/-- The zero vector. -/
def zero : Vec2 := ⟨0, 0⟩

end Vec2

/-- `f32::clamp(x, 0.0, 1.0)`. -/
def clamp01 (t : ℚ) : ℚ := min (max t 0) 1

/-- `InterpolatedPosition` component (src/entities/interpolation.rs):
a previous/current pair blended at render time. -/
structure InterpolatedPosition where
  previous_position : Vec2
  current_position : Vec2
deriving DecidableEq

namespace InterpolatedPosition

/-- `InterpolatedPosition::new`. -/
def new (position : Vec2) : InterpolatedPosition := ⟨position, position⟩

/-- `InterpolatedPosition::lerp` (src/entities/interpolation.rs lines 22-27):
clamps the alpha into [0, 1], then linearly interpolates between the previous
and the current position. -/
def lerp (ip : InterpolatedPosition) (alpha : ℚ) : Vec2 :=
  let alpha := clamp01 alpha
  Vec2.lerp ip.previous_position ip.current_position alpha

/-- `Interpolated::set`: replace the current value, keeping the previous one
(used on `InterpolatedPosition` by the respawn path in player.rs). -/
def set (ip : InterpolatedPosition) (v : Vec2) : InterpolatedPosition :=
  { ip with current_position := v }

/-- `Interpolated::reset`: replace the previous value with the current one. -/
def reset (ip : InterpolatedPosition) : InterpolatedPosition :=
  { ip with previous_position := ip.current_position }

end InterpolatedPosition

/-- A point `p` lies on the straight segment between `a` and `b`. -/
def onSegment (a b p : Vec2) : Prop :=
  ∃ u : ℚ, 0 ≤ u ∧ u ≤ 1 ∧ p = Vec2.lerp_unclamped a b u

/-! ## Collision groups (src/physics.rs lines 79-98) -/

namespace CollisionGroups

def PLAYER : ℕ := 0x0001

def SOLIDS : ℕ := 0x0100
def DEADLY : ℕ := 0x0200
def MORPH_ZONES : ℕ := 0x0400
def TRIGGERS : ℕ := 0x0800
def CAMERA_VIEWS : ℕ := 0x8000

def ALL : ℕ :=
  PLAYER ||| SOLIDS ||| DEADLY ||| MORPH_ZONES ||| CAMERA_VIEWS

end CollisionGroups

/-- A collider's `(memberships, filter)` bitmask pair
(rapier's `InteractionGroups`, constructed throughout the source). -/
structure InteractionGroups where
  memberships : ℕ
  filter : ℕ
deriving DecidableEq

/-- Modelled from the spec: the admissibility predicate of the external rapier
library, "a collision/query is admissible only if
(a.memberships AND b.filter) != 0 AND (b.memberships AND a.filter) != 0". -/
def queries_see (a b : InteractionGroups) : Bool :=
  (a.memberships &&& b.filter ≠ 0) ∧ (b.memberships &&& a.filter ≠ 0)

/-- The query groups used by death detection in `Player::tick`
(src/entities/player.rs line 299): memberships PLAYER, filter DEADLY. -/
def deathDetectionGroups : InteractionGroups :=
  ⟨CollisionGroups.PLAYER, CollisionGroups.DEADLY⟩

/-- The groups of a spikes collider built by `Map::build_spikes_collider`
(src/map/tiles.rs lines 257-264): memberships DEADLY, filter PLAYER. -/
def spikesColliderGroups : InteractionGroups :=
  ⟨CollisionGroups.DEADLY, CollisionGroups.PLAYER⟩

/-- The groups of a trigger collider as spawned by `Trigger::spawn`
(src/entities/trigger.rs lines 84-91): memberships TRIGGERS, filter PLAYER. -/
def triggerColliderGroups : InteractionGroups :=
  ⟨CollisionGroups.TRIGGERS, CollisionGroups.PLAYER⟩

/-- The groups of the player's collider as spawned by `Player::spawn`
(src/entities/player.rs lines 475-482): memberships PLAYER, filter SOLIDS. -/
def playerColliderGroups : InteractionGroups :=
  ⟨CollisionGroups.PLAYER, CollisionGroups.SOLIDS⟩

/-! ## Tweens (src/tween.rs)

The source tween keeps an `Instant` start time; wall-clock time is outside the
embedding, so a tween records its parameters and a counter of how many times
`start` has been called (each source `start` records a fresh `Instant::now()`,
i.e. restarts the animation). -/

/-- The easing functions of `src/tween.rs` (`easings` module), as tags. -/
inductive EasingKind
  | linear
  | cubicOut
  | bounceOut
deriving DecidableEq

/-- `Tween<f32>`: animation parameters plus a restart counter standing in for
the `Instant` start time. -/
structure Tween where
  startVal : ℚ
  endVal : ℚ
  durationMs : ℕ
  easing : EasingKind
  restarts : ℕ
deriving DecidableEq

namespace Tween

/-- `Tween::new(initial_value)`: both endpoints at the initial value,
one-second duration, linear easing. -/
def new (initial_value : ℚ) : Tween :=
  ⟨initial_value, initial_value, 1000, EasingKind.linear, 0⟩

/-- `Tween::start(start, end, duration, easing)`: replaces the animation
parameters and restarts the clock (modelled by bumping the restart counter). -/
def start (t : Tween) (s e : ℚ) (durationMs : ℕ) (easing : EasingKind) : Tween :=
  ⟨s, e, durationMs, easing, t.restarts + 1⟩

end Tween

/-! ## Morphs and physics parameters (src/entities/player.rs) -/

/-- `Morph` (src/entities/player.rs lines 31-44). -/
inductive Morph
  | None
  | Unshaped
  | Platformer
deriving DecidableEq

namespace Morph

/-- `Morph::FROM_U8` (line 47). -/
def FROM_U8 : List Morph := [Morph.None, Morph.Unshaped, Morph.Platformer]

end Morph

/-- Collider shapes used by the player morphs. -/
inductive Shape
  | ball (radius : ℚ)
  | cuboid (half_extents : Vec2)
deriving DecidableEq

/-- `PhysicsParams` (src/entities/player.rs lines 51-56). -/
structure PhysicsParams where
  size : Vec2
  shape : Shape
  restitution : ℚ
  gravity_scale : ℚ
deriving DecidableEq

/-- The player's rigid body, as far as the gameplay code observes and mutates
it: translation, linear velocity, accumulated user force (applied by the
external physics step), and gravity scale. -/
structure Body where
  translation : Vec2
  linvel : Vec2
  force : Vec2
  gravity_scale : ℚ
deriving DecidableEq

namespace Body

/-- rapier `RigidBody::apply_force`: accumulates a user force; the velocity
only changes at the next physics step. -/
def apply_force (b : Body) (f : Vec2) : Body := { b with force := b.force.add f }

/-- rapier `RigidBody::set_linvel`. -/
def set_linvel (b : Body) (v : Vec2) : Body := { b with linvel := v }

/-- rapier `RigidBody::set_translation`. -/
def set_translation (b : Body) (v : Vec2) : Body := { b with translation := v }

/-- rapier `RigidBody::set_gravity_scale`. -/
def set_gravity_scale (b : Body) (g : ℚ) : Body := { b with gravity_scale := g }

end Body

/-- The player's collider, as far as the gameplay code mutates it. -/
structure ColliderState where
  shape : Shape
  restitution : ℚ
deriving DecidableEq

namespace Unshaped

/-- `Unshaped::RADIUS` (line 62). -/
def RADIUS : ℚ := 3 / 10

/-- `Unshaped::size` (lines 68-70): `vector(RADIUS, RADIUS) * 2.0`. -/
def size : Vec2 := (Vec2.mk RADIUS RADIUS).scale 2

/-- `Unshaped::physics_params` (lines 73-80): ball of radius `RADIUS`,
restitution 0.8, gravity scale 0. -/
def physics_params : PhysicsParams :=
  ⟨size, Shape.ball RADIUS, 8 / 10, 0⟩

end Unshaped

namespace Platformer

/-- `Platformer::SIZE` (line 114). -/
def SIZE : Vec2 := ⟨8 / 10, 8 / 10⟩

/-- `Platformer::physics_params` (lines 132-139): cuboid with half extents
`SIZE / 2`, restitution 0, gravity scale 1. -/
def physics_params : PhysicsParams :=
  ⟨SIZE, Shape.cuboid (SIZE.scale (1 / 2)), 0, 1⟩

end Platformer

/-- `Platformer` control-state component (src/entities/player.rs lines
102-111).  The counters are `u8` in the source; they are only ever assigned
the constants 8, 10 and 0 and decremented by `saturating_sub(1)`, which is ℕ
subtraction. -/
structure PlatformerState where
  remaining_jump_ticks : ℕ
  jump_buffer : ℕ
  air_time : ℕ
  aspect_ratio_tween : Tween
  previous_velocity : Vec2
deriving DecidableEq

namespace PlatformerState

/-- `Platformer::new` (lines 116-124). -/
def new : PlatformerState :=
  ⟨0, 0, 0, Tween.new 1, Vec2.zero⟩

end PlatformerState

/-- The per-tick input sample (src/input.rs interface, abstracted as the spec
directs: `button_down`, `button_just_pressed`, `joystick_vector`). -/
structure Input where
  joystick : Vec2
  jump_just_pressed : Bool
  jump_down : Bool
deriving DecidableEq

namespace Platformer

/-- `JUMP_SUSTAIN` (line 147). -/
def JUMP_SUSTAIN : ℕ := 10

/-- `JUMP_LEEWAY` (line 150). -/
def JUMP_LEEWAY : ℕ := 8

/-- `COYOTE_TIME` (line 152). -/
def COYOTE_TIME : ℕ := 10

/-- `WALKING_VELOCITY` (line 155). -/
def WALKING_VELOCITY : ℚ := 12

/-- The loop body of `Platformer::tick_controls` (src/entities/player.rs lines
142-226) for one player, acting on the platformer state and the rigid body.
The ground test `Platformer::is_on_ground` is a physics spatial query; its
result is passed in as `is_on_ground`.  The returned boolean observes whether
the jump branch at lines 183-188 executed. -/
def tick_controls_body (input : Input) (is_on_ground : Bool)
    (p0 : PlatformerState) (body0 : Body) : (PlatformerState × Body) × Bool :=
  -- lines 160-173: horizontal acceleration while walking
  let is_walking : Bool := decide (|body0.linvel.x| < WALKING_VELOCITY)
  let body1 : Body :=
    if is_walking ∧ |input.joystick.x| > 3 / 10 then
      body0.apply_force ⟨175 * input.joystick.x, 0⟩
    else body0
  -- lines 176-181: refresh the jump buffer and the coyote-time counter
  let p1 : PlatformerState :=
    if input.jump_just_pressed then { p0 with jump_buffer := JUMP_LEEWAY } else p0
  let p2 : PlatformerState :=
    if is_on_ground then { p1 with air_time := COYOTE_TIME } else p1
  -- lines 183-188: execute a jump when both counters are nonzero
  let fired : Bool := decide (0 < p2.jump_buffer ∧ 0 < p2.air_time)
  let p3 : PlatformerState :=
    if fired then { p2 with remaining_jump_ticks := JUMP_SUSTAIN, jump_buffer := 0 } else p2
  let body2 : Body := if fired then body1.set_linvel ⟨body1.linvel.x, 0⟩ else body1
  -- lines 191-203: jump sustain force and squish tween
  let sustain : Bool := input.jump_down && decide (0 < p3.remaining_jump_ticks)
  let strength : ℚ := ((p3.remaining_jump_ticks : ℚ) / (JUMP_SUSTAIN : ℚ)) ^ 6
  let body3 : Body := if sustain then body2.apply_force ⟨0, -(700 * strength)⟩ else body2
  let p4 : PlatformerState :=
    if sustain ∧ input.jump_just_pressed then
      { p3 with aspect_ratio_tween :=
          p3.aspect_ratio_tween.start (6 / 10) 1 350 EasingKind.cubicOut }
    else p3
  -- lines 204-206: releasing the button stops the sustain
  let p5 : PlatformerState :=
    if ¬input.jump_down then { p4 with remaining_jump_ticks := 0 } else p4
  -- lines 208-210: counters decay by saturating subtraction
  let p6 : PlatformerState := { p5 with
    air_time := p5.air_time - 1,
    jump_buffer := p5.jump_buffer - 1,
    remaining_jump_ticks := p5.remaining_jump_ticks - 1 }
  -- lines 212-218: horizontal velocity decay when walking or grounded
  let body4 : Body :=
    body3.set_linvel ⟨body3.linvel.x * (if is_walking ∨ is_on_ground then 8 / 10 else 1),
                      body3.linvel.y⟩
  -- lines 220-224: stretch tween on the rising-to-falling transition
  let p7 : PlatformerState :=
    if p6.previous_velocity.y > 1 / 100 ∧ body4.linvel.y ≤ 1 / 100 then
      { p6 with aspect_ratio_tween :=
          p6.aspect_ratio_tween.start (15 / 10) 1 250 EasingKind.cubicOut }
    else p6
  let p8 : PlatformerState := { p7 with previous_velocity := body4.linvel }
  ((p8, body4), fired)

end Platformer

/-! ## Triggers (src/entities/trigger.rs) -/

/-- `Triggered` component data (src/entities/trigger.rs lines 13-20) as posted
to a trigger's target; entities are abstracted as numbers, with the single
modelled trigger having id 0. -/
structure TriggeredPost where
  method : ℕ
  source : ℕ
  trigger : ℕ
deriving DecidableEq

/-- `Trigger` component (src/entities/trigger.rs lines 23-29). -/
structure Trigger where
  target : ℕ
  method : ℕ
  triggered_this_tick : Bool
deriving DecidableEq

namespace Trigger

/-- `Trigger::new(target, method)` (lines 33-39): starts not triggered. -/
def new (target method : ℕ) : Trigger := ⟨target, method, false⟩

/-- The loop body of `Trigger::tick` (lines 44-71) for one trigger entity.
`overlap` is the result of the `intersection_with_shape` query under the
trigger collider's own collision filter: the source entity decoded from the
hit collider's user data, if any.  Returns the updated trigger and the
`Triggered` component buffered for the target, if the trigger fired. -/
def tick_one (tr : Trigger) (overlap : Option ℕ) : Trigger × Option TriggeredPost :=
  match overlap with
  | some source =>
    if ¬tr.triggered_this_tick then
      ({ tr with triggered_this_tick := true }, some ⟨tr.method, source, 0⟩)
    else (tr, none)
  | none => ({ tr with triggered_this_tick := false }, none)

/-- Iterated runs of the trigger system over a sequence of per-run overlap
query results, collecting every `Triggered` post in order. -/
def run (tr : Trigger) : List (Option ℕ) → List TriggeredPost
  | [] => []
  | o :: rest => (tick_one tr o).2.toList ++ run (tick_one tr o).1 rest

/-- The trigger state after a sequence of runs. -/
def run_state (tr : Trigger) : List (Option ℕ) → Trigger
  | [] => tr
  | o :: rest => run_state (tick_one tr o).1 rest

end Trigger

/-- Modelled from the spec: the number of false-to-true transitions of the
overlap condition ("fire only on the false→true transition"), given the
previous value of the condition. -/
def rising_edges : Bool → List Bool → ℕ
  | _, [] => 0
  | prev, b :: rest => (if b ∧ ¬prev then 1 else 0) + rising_edges b rest

/-! ## The world model

The claims quantify over one player entity (plus, for the checkpoint claim,
one checkpoint entity).  `GState` carries that player's components — the ECS
world rows — and `Env` carries one tick's external inputs: the sampled input
and the results of the physics spatial queries (which never mutate state). -/

/-- `Interpolated<T>` (src/interpolation.rs lines 23-29), for the camera. -/
structure Interpolated where
  current : Vec2
  previous : Vec2
deriving DecidableEq

namespace Interpolated

/-- `Interpolated::new`. -/
def new (v : Vec2) : Interpolated := ⟨v, v⟩

/-- `Interpolated::update`: previous becomes current, current becomes `v`. -/
def update (ip : Interpolated) (v : Vec2) : Interpolated := ⟨v, ip.current⟩

end Interpolated

/-- `Camera` component (src/entities/camera.rs lines 45-52).  The view is
stored as the overlapped `CameraView`'s Position/Size pair (in the source a
view entity id is stored and its Position/Size fetched on use). -/
structure Camera where
  view : Option (Vec2 × Vec2)
  position : Interpolated
  size : Interpolated
deriving DecidableEq

namespace Camera

/-- `Camera::new` (lines 56-62). -/
def new : Camera := ⟨none, Interpolated.new Vec2.zero, Interpolated.new Vec2.zero⟩

end Camera

/-- One simulation tick's external inputs: the input sample and the results of
the per-tick physics spatial queries. -/
structure Env where
  input : Input
  /-- Result of the DEADLY-filtered intersection query of `Player::tick`. -/
  overlaps_deadly : Bool
  /-- Result of the MORPH_ZONES-filtered intersection query of `Player::tick`:
  the hit collider's user data, if any collider was hit. -/
  morph_zone : Option ℕ
  /-- Result of the SOLIDS-filtered ground cast of `Platformer::is_on_ground`. -/
  is_on_ground : Bool
  /-- Result of the CAMERA_VIEWS-filtered query of `Camera::update_current_view`:
  the overlapped view's Position and Size, if any. -/
  camera_view : Option (Vec2 × Vec2)
deriving DecidableEq

/-- An environment is well formed when any morph-zone hit carries the user
data actually written by the zone spawn paths: `PlatformerZone::spawn` stores
`Morph::Platformer as u8` (= 2), and index 1 (`Morph::Unshaped`) is the only
other in-bounds non-`None` tag.  (`DeadlyZone` colliders carry user data 0 but
are not in the MORPH_ZONES group, so the query never returns them.) -/
def Env.wf (e : Env) : Prop :=
  e.morph_zone = none ∨ e.morph_zone = some 1 ∨ e.morph_zone = some 2

instance (e : Env) : Decidable e.wf := by
  unfold Env.wf
  infer_instance

/-- The ECS rows of the player entity (components spawned by `Player::spawn`,
src/entities/player.rs lines 486-498), together with the rows of one
checkpoint entity and the player's optional `RespawnPosition` component
(src/entities/checkpoint.rs), which no spawn path ever attaches to a player. -/
structure GState where
  -- `Player` component (lines 254-258)
  checkpoint : Vec2
  spawn_animation : Tween
  -- `Position` component
  position : Vec2
  -- `InterpolatedPosition` component
  interpolated : InterpolatedPosition
  -- `Size` component
  size : Vec2
  -- rigid body and collider owned by the physics world, reached via the
  -- `RigidBody` and `Collider` handle components
  body : Body
  collider : ColliderState
  -- `Morph` component
  morph : Morph
  -- `Unshaped` marker component (stateless)
  has_unshaped : Bool
  -- `Platformer` component, when attached
  platformer : Option PlatformerState
  -- `Kill` component (`remaining_time`), when attached
  kill : Option ℕ
  -- `Dead` marker component
  dead : Bool
  -- `Camera` component
  camera : Camera
  -- the checkpoint entity's `Position` and optional `Triggered` components
  checkpoint_entity_position : Vec2
  checkpoint_entity_triggered : Option TriggeredPost
  -- the player's optional `RespawnPosition` component
  respawn_position : Option Vec2
deriving DecidableEq

/-- The `Alive` query filter (src/entities/dead.rs line 43): neither `Kill`
nor `Dead` is attached. -/
def GState.alive (s : GState) : Prop := s.kill = none ∧ s.dead = false

instance (s : GState) : Decidable s.alive := by
  unfold GState.alive
  infer_instance

namespace Unshaped

/-- `Unshaped::tick_controls` (src/entities/player.rs lines 82-98), restricted
to the one modelled player: only `Alive` players bearing `Unshaped` are
queried; joystick input beyond the dead zone applies a force, otherwise the
linear velocity is damped. -/
def tick_controls (input : Input) (s : GState) : GState :=
  if s.alive ∧ s.has_unshaped then
    if input.joystick.magnitude_squared > 9 / 100 then
      { s with body := s.body.apply_force (input.joystick.scale 50) }
    else
      { s with body := s.body.set_linvel (s.body.linvel.scale (97 / 100)) }
  else s

end Unshaped

namespace Platformer

/-- `Platformer::tick_controls` (lines 142-226), restricted to the one
modelled player: only `Alive` players bearing `Platformer` are queried. -/
def tick_controls (input : Input) (is_on_ground : Bool) (s : GState) : GState :=
  match s.platformer with
  | none => s
  | some p =>
    if s.alive then
      let r := tick_controls_body input is_on_ground p s.body
      { s with platformer := some r.1.1, body := r.1.2 }
    else s

end Platformer

namespace Player

/-- `Player::tick_controls` (lines 277-285): unshaped controls, then
platformer controls. -/
def tick_controls (env : Env) (s : GState) : GState :=
  Platformer.tick_controls env.input env.is_on_ground
    (Unshaped.tick_controls env.input s)

/-- The morph tag detected by the zone check of `Player::tick` (lines
335-346): the hit collider's user data indexes `Morph::FROM_U8` (an
out-of-bounds index panics, modelled as `none`); with no hit the morph
defaults to `Unshaped`. -/
def zone_morph (mz : Option ℕ) : Option Morph :=
  match mz with
  | some ud => Morph.FROM_U8.get? ud
  | none => some Morph.Unshaped

/-- The physics-parameter update of `Player::morph` (lines 369-382): swap the
collider's shape and restitution, the body's gravity scale, and `Size`. -/
def apply_physics_params (params : PhysicsParams) (s : GState) : GState :=
  { s with
    collider := ⟨params.shape, params.restitution⟩,
    body := s.body.set_gravity_scale params.gravity_scale,
    size := params.size }

/-- `Player::morph` (lines 358-383): remove both morph components, insert the
one matching the kind (`Morph::None` panics, modelled as `none`), and update
the physics properties. -/
def morph_fn (m : Morph) (s : GState) : Option GState :=
  let s1 : GState := { s with has_unshaped := false, platformer := none }
  match m with
  | Morph.None => none
  | Morph.Unshaped =>
    some (apply_physics_params Unshaped.physics_params { s1 with has_unshaped := true })
  | Morph.Platformer =>
    some (apply_physics_params Platformer.physics_params
      { s1 with platformer := some PlatformerState.new })

/-- The first loop of `Player::tick` (lines 289-307): `Alive` players
overlapping the DEADLY group get `Kill::after(1)` attached. -/
def kill_detection (env : Env) (s : GState) : GState :=
  if s.alive ∧ env.overlaps_deadly then { s with kill := some 1 } else s

/-- The second loop of `Player::tick` (lines 309-327): every `Dead` player is
teleported to its checkpoint (with the interpolation buffer reset to it), its
velocity zeroed, `Dead` removed, and the spawn animation restarted. -/
def respawn_dead (s : GState) : GState :=
  if s.dead then
    { s with
      interpolated := (s.interpolated.set s.checkpoint).reset,
      body := (s.body.set_translation s.checkpoint).set_linvel Vec2.zero,
      dead := false,
      spawn_animation := s.spawn_animation.start 0 1 250 EasingKind.bounceOut }
  else s

/-- The third loop of `Player::tick` (lines 329-355): the morph-zone check,
which runs for every player (dead or not); on a change of detected morph,
`Player::morph` runs and the spawn animation is restarted. -/
def morph_check (env : Env) (s : GState) : Option GState :=
  match zone_morph env.morph_zone with
  | none => none
  | some zm =>
    if zm ≠ s.morph then
      match morph_fn zm { s with morph := zm } with
      | none => none
      | some s3 =>
        some { s3 with
          spawn_animation := s3.spawn_animation.start 0 1 250 EasingKind.bounceOut }
    else some s

/-- `Player::tick` (lines 288-356): kill detection against DEADLY for `Alive`
players, respawn of all `Dead` players at their checkpoint, then the morph
zone check. -/
def tick (env : Env) (s : GState) : Option GState :=
  morph_check env (respawn_dead (kill_detection env s))

end Player

namespace Kill

/-- `Kill::tick` (src/entities/dead.rs lines 23-36), restricted to the one
modelled player: decrement `remaining_time` by saturating subtraction; at zero
the `Kill` component is removed and `Dead` inserted. -/
def tick (s : GState) : GState :=
  match s.kill with
  | none => s
  | some n =>
    if n - 1 = 0 then { s with kill := none, dead := true }
    else { s with kill := some (n - 1) }

end Kill

/-- `tick_physics` (src/entities/physics.rs lines 19-27): sync the `Position`
component from the physics body's translation. -/
def tick_physics (s : GState) : GState :=
  { s with position := s.body.translation }

/-- `tick_interpolation` (src/entities/interpolation.rs lines 30-37): the
previous position becomes the current one, the current one is taken from
`Position`. -/
def tick_interpolation (s : GState) : GState :=
  { s with interpolated := ⟨s.interpolated.current_position, s.position⟩ }

namespace Camera

/-- `Camera::update_current_view` (src/entities/camera.rs lines 85-107): the
camera's view becomes the CAMERA_VIEWS query result (cleared when no hit). -/
def update_current_view (env : Env) (c : Camera) : Camera :=
  { c with view := env.camera_view }

/-- `Camera::tick` (lines 110-131): update the current view, then animate the
position and size toward it with `lerp(current, target, ANIMATION_SPEED)`. -/
def tick (env : Env) (s : GState) : GState :=
  let cam1 := update_current_view env s.camera
  match cam1.view with
  | none => { s with camera := cam1 }
  | some tv =>
    { s with camera :=
      { cam1 with
        position := cam1.position.update (Vec2.lerp cam1.position.current tv.1 (1 / 5)),
        size := cam1.size.update (Vec2.lerp cam1.size.current tv.2 (1 / 5)) } }

/-- `Camera::warp` (lines 71-82): update the current view, then snap the
interpolated position and size to it (set + reset). -/
def warp (env : Env) (s : GState) : GState :=
  let cam1 := update_current_view env s.camera
  match cam1.view with
  | none => { s with camera := cam1 }
  | some tv =>
    { s with camera := { cam1 with position := ⟨tv.1, tv.1⟩, size := ⟨tv.2, tv.2⟩ } }

end Camera

/-- `tick_systems` (src/entities/mod.rs lines 46-54), in source order:
`Player::tick_controls`, `Player::tick`, `Kill::tick`, `tick_physics`,
`tick_interpolation`, `Camera::tick`.  (`Trigger::tick` and `Checkpoint::tick`
are not called here — nor anywhere else: entities/mod.rs declares neither the
`trigger` nor the `checkpoint` module.) -/
def tick_systems (env : Env) (s : GState) : Option GState :=
  (Player.tick env (Player.tick_controls env s)).map
    (fun s2 => Camera.tick env (tick_interpolation (tick_physics (Kill.tick s2))))

namespace State

/-- `State::update` (src/states/game.rs lines 124-133): run `tick_systems`,
then step the physics world.  The external rapier step is abstracted as a
function on the rigid body. -/
def update (env : Env) (step : Body → Body) (s : GState) : Option GState :=
  (tick_systems env s).map (fun s2 => { s2 with body := step s2.body })

end State

/-- Modelled from the spec: the per-tick ordering claimed in §4.6 — "(2) run
player control systems, (3) run morph/death/respawn/zone-detection logic,
(4) step the Physics World, (5) sync ECS Position from physics body
transforms, (6) update interpolation buffers, (7) update camera tracking" —
with the physics step between the gameplay logic and the Position sync. -/
def spec_order_update (env : Env) (step : Body → Body) (s : GState) : Option GState :=
  (Player.tick env (Player.tick_controls env s)).map
    (fun s2 =>
      let s3 := Kill.tick s2
      let s4 : GState := { s3 with body := step s3.body }
      Camera.tick env (tick_interpolation (tick_physics s4)))

namespace Player

/-- The component bundle passed to `world.spawn_at` by `Player::spawn` (lines
486-498): `Player::new(position)` (checkpoint at the spawn position, spawn
animation started), `Position`, `InterpolatedPosition`, `Size` (platformer
size), the dynamic body and cuboid collider built at lines 472-484,
`Morph::None`, and a fresh `Camera`. -/
def spawn_components (position : Vec2) : GState := {
  checkpoint := position,
  spawn_animation := (Tween.new 1).start 0 1 250 EasingKind.bounceOut,
  position := position,
  interpolated := InterpolatedPosition.new position,
  size := Platformer.SIZE,
  body := ⟨position, Vec2.zero, Vec2.zero, 1⟩,
  collider := ⟨Shape.cuboid (Platformer.SIZE.scale (1 / 2)), 0⟩,
  morph := Morph.None,
  has_unshaped := false,
  platformer := none,
  kill := none,
  dead := false,
  camera := Camera.new,
  checkpoint_entity_position := Vec2.zero,
  checkpoint_entity_triggered := none,
  respawn_position := none }

/-- `Player::spawn` (src/entities/player.rs lines 468-503): spawn the player's
components, update the query pipeline, warp the camera, and immediately run
one `Player::tick` so the zone check resolves the `Morph::None` placeholder.
The checkpoint entity is spawned separately by the map loader; its rows are
empty here, and no spawn path attaches `RespawnPosition` to the player. -/
def spawn (env : Env) (position : Vec2) : Option GState :=
  Player.tick env (Camera.warp env (spawn_components position))

end Player

namespace Checkpoint

/-- `Checkpoint::SET_RESPAWN_POSITION` (src/entities/checkpoint.rs line 18). -/
def SET_RESPAWN_POSITION : ℕ := 0

/-- `Checkpoint::tick` (src/entities/checkpoint.rs lines 21-36), restricted to
the one modelled checkpoint entity with the player as triggering source: when
the checkpoint bears `Triggered` with the set-respawn-position method, the
source's `RespawnPosition` component is set to the checkpoint's `Position` and
`Triggered` is removed.  `world.get_mut::<RespawnPosition>(entity).unwrap()`
panics when the source has no `RespawnPosition` component, modelled as `none`.
This function is dead code in the repository: nothing ever calls it. -/
def tick (s : GState) : Option GState :=
  match s.checkpoint_entity_triggered with
  | none => some s
  | some tr =>
    if tr.method = SET_RESPAWN_POSITION then
      match s.respawn_position with
      | none => none
      | some _ =>
        some { s with
          respawn_position := some s.checkpoint_entity_position,
          checkpoint_entity_triggered := none }
    else some s

end Checkpoint

/-! ## Morph-state invariants -/

/-- The size, collider shape, collider restitution and body gravity scale of
the player all equal the given physics parameters. -/
def matches_params (s : GState) (params : PhysicsParams) : Prop :=
  s.size = params.size ∧ s.collider.shape = params.shape ∧
  s.collider.restitution = params.restitution ∧
  s.body.gravity_scale = params.gravity_scale

/-- Exactly one of the `Unshaped` and `Platformer` components is attached. -/
def exactly_one_morph_component (s : GState) : Prop :=
  (s.has_unshaped = true ∧ s.platformer.isSome = false) ∨
  (s.has_unshaped = false ∧ s.platformer.isSome = true)

/-- The player's morph tag, attached morph component, and physics properties
are mutually consistent. -/
def morph_consistent (s : GState) : Prop :=
  (s.morph = Morph.Unshaped ∧ s.has_unshaped = true ∧ s.platformer.isSome = false ∧
    matches_params s Unshaped.physics_params) ∨
  (s.morph = Morph.Platformer ∧ s.has_unshaped = false ∧ s.platformer.isSome = true ∧
    matches_params s Platformer.physics_params)

/-- The fields `morph_consistent` depends on. -/
def morph_fields (s : GState) :
    Morph × Bool × Bool × Vec2 × ColliderState × ℚ :=
  (s.morph, s.has_unshaped, s.platformer.isSome, s.size, s.collider, s.body.gravity_scale)

instance (s : GState) (params : PhysicsParams) : Decidable (matches_params s params) := by
  unfold matches_params
  infer_instance

instance (s : GState) : Decidable (exactly_one_morph_component s) := by
  unfold exactly_one_morph_component
  infer_instance

instance (s : GState) : Decidable (morph_consistent s) := by
  unfold morph_consistent
  infer_instance

/-! ## Helper lemmas about the systems -/

lemma morph_consistent_congr {s t : GState} (h : morph_fields s = morph_fields t) :
    morph_consistent s ↔ morph_consistent t := by
  unfold morph_fields at h
  simp only [Prod.mk.injEq] at h
  obtain ⟨h1, h2, h3, h4, h5, h6⟩ := h
  unfold morph_consistent matches_params
  rw [h1, h2, h3, h4, h5, h6]

lemma morph_consistent_exactly_one {s : GState} (h : morph_consistent s) :
    exactly_one_morph_component s := by
  unfold morph_consistent at h
  unfold exactly_one_morph_component
  rcases h with ⟨_, h1, h2, _⟩ | ⟨_, h1, h2, _⟩
  · exact Or.inl ⟨h1, h2⟩
  · exact Or.inr ⟨h1, h2⟩

/-- `Player::morph` panics on `Morph::None`. -/
lemma morph_fn_None (s : GState) : Player.morph_fn Morph.None s = none := rfl

/-- `Player::morph` to `Unshaped`: explicit result. -/
lemma morph_fn_Unshaped (s : GState) :
    Player.morph_fn Morph.Unshaped s =
      some { s with
        has_unshaped := true, platformer := none,
        collider := ⟨Shape.ball Unshaped.RADIUS, 8 / 10⟩,
        body := { s.body with gravity_scale := 0 },
        size := Unshaped.size } := by
  simp [Player.morph_fn, Player.apply_physics_params, Unshaped.physics_params,
    Body.set_gravity_scale]

/-- `Player::morph` to `Platformer`: explicit result. -/
lemma morph_fn_Platformer (s : GState) :
    Player.morph_fn Morph.Platformer s =
      some { s with
        has_unshaped := false, platformer := some PlatformerState.new,
        collider := ⟨Shape.cuboid (Platformer.SIZE.scale (1 / 2)), 0⟩,
        body := { s.body with gravity_scale := 1 },
        size := Platformer.SIZE } := by
  simp [Player.morph_fn, Player.apply_physics_params, Platformer.physics_params,
    Body.set_gravity_scale]

/-- `Platformer::tick_controls` never moves the body or changes its gravity
scale: it only applies forces and sets velocities. -/
lemma tick_controls_body_frame (i : Input) (g : Bool) (p : PlatformerState) (b : Body) :
    (Platformer.tick_controls_body i g p b).1.2.translation = b.translation ∧
    (Platformer.tick_controls_body i g p b).1.2.gravity_scale = b.gravity_scale := by
  unfold Platformer.tick_controls_body
  simp only [Body.apply_force, Body.set_linvel]
  split_ifs <;> exact ⟨rfl, rfl⟩

/-- `Unshaped::tick_controls` only touches the body, and there only the force
and the velocity. -/
lemma unshaped_controls_frame (i : Input) (s : GState) :
    ∃ b, Unshaped.tick_controls i s = { s with body := b } ∧
      b.translation = s.body.translation ∧
      b.gravity_scale = s.body.gravity_scale := by
  unfold Unshaped.tick_controls
  split_ifs <;>
    exact ⟨_, rfl, by simp [Body.apply_force, Body.set_linvel],
      by simp [Body.apply_force, Body.set_linvel]⟩

/-- `Platformer::tick_controls` only touches the body (force, velocity) and
the platformer counter state, which stays attached. -/
lemma platformer_controls_frame (i : Input) (g : Bool) (s : GState) :
    ∃ b pl, Platformer.tick_controls i g s = { s with body := b, platformer := pl } ∧
      b.translation = s.body.translation ∧
      b.gravity_scale = s.body.gravity_scale ∧
      pl.isSome = s.platformer.isSome := by
  unfold Platformer.tick_controls
  cases hp : s.platformer with
  | none => exact ⟨s.body, s.platformer, rfl, rfl, rfl, by rw [hp]⟩
  | some p =>
    split_ifs with ha
    · obtain ⟨ht, hg⟩ := tick_controls_body_frame i g p s.body
      exact ⟨_, _, rfl, ht, hg, rfl⟩
    · exact ⟨s.body, s.platformer, rfl, rfl, rfl, by rw [hp]⟩

/-- The control systems only touch the body and the platformer counters. -/
lemma tick_controls_frame (env : Env) (s : GState) :
    ∃ b pl, Player.tick_controls env s = { s with body := b, platformer := pl } ∧
      b.translation = s.body.translation ∧
      b.gravity_scale = s.body.gravity_scale ∧
      pl.isSome = s.platformer.isSome := by
  unfold Player.tick_controls
  obtain ⟨b1, hu, ht1, hg1⟩ := unshaped_controls_frame env.input s
  obtain ⟨b2, pl2, hpl, ht2, hg2, hps⟩ :=
    platformer_controls_frame env.input env.is_on_ground (Unshaped.tick_controls env.input s)
  rw [hu] at hpl ht2 hg2 hps ⊢
  exact ⟨b2, pl2, hpl, by rw [ht2, ht1], by rw [hg2, hg1], hps⟩

/-- The control systems skip players that are not `Alive`. -/
lemma tick_controls_not_alive (env : Env) (s : GState) (h : ¬s.alive) :
    Player.tick_controls env s = s := by
  unfold Player.tick_controls Platformer.tick_controls Unshaped.tick_controls
  split <;> simp_all

lemma kill_tick_frame (s : GState) :
    ∃ k d, Kill.tick s = { s with kill := k, dead := d } := by
  unfold Kill.tick
  split
  case h_1 => exact ⟨s.kill, s.dead, rfl⟩
  case h_2 => split_ifs <;> exact ⟨_, _, rfl⟩

lemma kill_tick_of_none {s : GState} (h : s.kill = none) : Kill.tick s = s := by
  unfold Kill.tick
  rw [h]

lemma kill_tick_of_one {s : GState} (h : s.kill = some 1) :
    Kill.tick s = { s with kill := none, dead := true } := by
  unfold Kill.tick
  rw [h]
  rfl

lemma camera_tick_frame (env : Env) (s : GState) :
    ∃ c, Camera.tick env s = { s with camera := c } := by
  unfold Camera.tick Camera.update_current_view
  cases henv : env.camera_view <;> simp only [henv] <;> exact ⟨_, rfl⟩

lemma kill_detection_frame (env : Env) (s : GState) :
    ∃ k, Player.kill_detection env s = { s with kill := k } := by
  unfold Player.kill_detection
  split_ifs <;> exact ⟨_, rfl⟩

lemma kill_detection_hit {env : Env} {s : GState}
    (ha : s.alive) (hd : env.overlaps_deadly = true) :
    Player.kill_detection env s = { s with kill := some 1 } := by
  unfold Player.kill_detection
  rw [if_pos ⟨ha, hd⟩]

lemma kill_detection_not_alive {env : Env} {s : GState} (h : ¬s.alive) :
    Player.kill_detection env s = s := by
  unfold Player.kill_detection
  rw [if_neg (fun hc => h hc.1)]

lemma respawn_dead_of_dead {s : GState} (h : s.dead = true) :
    Player.respawn_dead s =
      { s with
        interpolated := (s.interpolated.set s.checkpoint).reset,
        body := (s.body.set_translation s.checkpoint).set_linvel Vec2.zero,
        dead := false,
        spawn_animation := s.spawn_animation.start 0 1 250 EasingKind.bounceOut } := by
  unfold Player.respawn_dead
  rw [if_pos h]

lemma respawn_dead_of_live {s : GState} (h : s.dead = false) :
    Player.respawn_dead s = s := by
  unfold Player.respawn_dead
  rw [if_neg (by simp [h])]

/-- For a well-formed environment the zone check always decodes a real morph:
`Unshaped` when no zone is hit (or the hit carries user data 1), `Platformer`
when the hit carries user data 2. -/
lemma zone_morph_wf {env : Env} (hwf : env.wf) :
    (env.morph_zone = none ∧ Player.zone_morph env.morph_zone = some Morph.Unshaped) ∨
    (env.morph_zone = some 1 ∧ Player.zone_morph env.morph_zone = some Morph.Unshaped) ∨
    (env.morph_zone = some 2 ∧ Player.zone_morph env.morph_zone = some Morph.Platformer) := by
  rcases hwf with h | h | h
  · exact Or.inl ⟨h, by rw [h]; rfl⟩
  · exact Or.inr (Or.inl ⟨h, by rw [h]; rfl⟩)
  · exact Or.inr (Or.inr ⟨h, by rw [h]; rfl⟩)

/-- For a well-formed environment the zone check always decodes to a real
(non-`None`) morph. -/
lemma zone_morph_wf2 {env : Env} (hwf : env.wf) :
    ∃ zm, Player.zone_morph env.morph_zone = some zm ∧ zm ≠ Morph.None := by
  rcases zone_morph_wf hwf with ⟨_, hz⟩ | ⟨_, hz⟩ | ⟨_, hz⟩
  · exact ⟨Morph.Unshaped, hz, by decide⟩
  · exact ⟨Morph.Unshaped, hz, by decide⟩
  · exact ⟨Morph.Platformer, hz, by decide⟩

lemma morph_fields_morph {s t : GState} (h : morph_fields s = morph_fields t) :
    s.morph = t.morph :=
  congrArg Prod.fst h

/-- The morph check leaves everything but the morph data and the spawn
animation alone, and either does nothing or restarts the spawn animation. -/
lemma morph_check_frame {env : Env} {s s' : GState}
    (h : Player.morph_check env s = some s') :
    s'.checkpoint = s.checkpoint ∧
    s'.position = s.position ∧
    s'.interpolated = s.interpolated ∧
    s'.kill = s.kill ∧
    s'.dead = s.dead ∧
    s'.camera = s.camera ∧
    s'.body.translation = s.body.translation ∧
    s'.body.linvel = s.body.linvel ∧
    s'.checkpoint_entity_position = s.checkpoint_entity_position ∧
    s'.checkpoint_entity_triggered = s.checkpoint_entity_triggered ∧
    s'.respawn_position = s.respawn_position ∧
    (s'.spawn_animation = s.spawn_animation ∨
      s'.spawn_animation = s.spawn_animation.start 0 1 250 EasingKind.bounceOut) := by
  unfold Player.morph_check at h
  split at h
  · exact absurd h (by simp)
  · rename_i zm hzm
    split_ifs at h
    · cases zm
      · rw [morph_fn_None] at h
        exact absurd h (by simp)
      · rw [morph_fn_Unshaped] at h
        simp only [Option.some.injEq] at h
        subst h
        simp
      · rw [morph_fn_Platformer] at h
        simp only [Option.some.injEq] at h
        subst h
        simp
    · simp only [Option.some.injEq] at h
      subst h
      simp

/-- Reducing the morph check once the decoded zone morph is known. -/
lemma morph_check_of_decode {env : Env} {s : GState} {zm : Morph}
    (hz : Player.zone_morph env.morph_zone = some zm) :
    Player.morph_check env s =
      if zm ≠ s.morph then
        match Player.morph_fn zm { s with morph := zm } with
        | none => none
        | some s3 =>
          some { s3 with
            spawn_animation := s3.spawn_animation.start 0 1 250 EasingKind.bounceOut }
      else some s := by
  unfold Player.morph_check
  rw [hz]

/-- On an unchanged morph the morph check is the identity. -/
lemma morph_check_of_same {env : Env} {s : GState} {zm : Morph}
    (hz : Player.zone_morph env.morph_zone = some zm) (he : zm = s.morph) :
    Player.morph_check env s = some s := by
  rw [morph_check_of_decode hz]
  simp [he]

/-- On a changed morph the morph check performs the transition and restarts
the spawn animation; for a real target morph it cannot panic, and it leaves
the state morph-consistent. -/
lemma morph_check_of_changed {env : Env} {s : GState} {zm : Morph}
    (hz : Player.zone_morph env.morph_zone = some zm) (hne : zm ≠ s.morph)
    (hzm : zm ≠ Morph.None) :
    ∃ s', Player.morph_check env s = some s' ∧ s'.morph = zm ∧
      morph_consistent s' := by
  rw [morph_check_of_decode hz]
  rw [if_pos hne]
  cases zm
  · exact absurd rfl hzm
  · rw [morph_fn_Unshaped]
    refine ⟨_, rfl, rfl, ?_⟩
    unfold morph_consistent matches_params
    exact Or.inl ⟨rfl, rfl, rfl, rfl, rfl, rfl, rfl⟩
  · rw [morph_fn_Platformer]
    refine ⟨_, rfl, rfl, ?_⟩
    unfold morph_consistent matches_params
    exact Or.inr ⟨rfl, rfl, rfl, rfl, rfl, rfl, rfl⟩

/-- Splitting a successful `tick_systems` run into the `Player::tick` part and
the tail systems. -/
lemma tick_systems_eq {env : Env} {s s' : GState}
    (h : tick_systems env s = some s') :
    ∃ t, Player.tick env (Player.tick_controls env s) = some t ∧
      s' = Camera.tick env (tick_interpolation (tick_physics (Kill.tick t))) := by
  unfold tick_systems at h
  cases hp : Player.tick env (Player.tick_controls env s) with
  | none => rw [hp] at h; exact absurd h (by simp)
  | some t =>
    rw [hp] at h
    simp only [Option.map_some', Option.some.injEq] at h
    exact ⟨t, rfl, h.symm⟩

/-- The systems after `Player::tick` only touch `kill`, `dead`, the camera,
and the `Position`/`InterpolatedPosition` sync. -/
lemma post_chain (env : Env) (t : GState) :
    ∃ k d c,
      Camera.tick env (tick_interpolation (tick_physics (Kill.tick t))) =
      { t with
        kill := k, dead := d, camera := c,
        position := t.body.translation,
        interpolated := ⟨t.interpolated.current_position, t.body.translation⟩ } := by
  obtain ⟨k, d, hkd⟩ := kill_tick_frame t
  refine ⟨k, d, ?_⟩
  rw [hkd]
  unfold tick_physics tick_interpolation
  obtain ⟨c, hc⟩ := camera_tick_frame env
    { t with
      kill := k, dead := d,
      position := t.body.translation,
      interpolated := ⟨t.interpolated.current_position, t.body.translation⟩ }
  exact ⟨c, hc⟩

/-- The respawn pass only touches the interpolation buffer, the body
(translation/velocity, not gravity), the `Dead` flag and the spawn
animation. -/
lemma respawn_dead_frame (s : GState) :
    ∃ ip b d sa,
      Player.respawn_dead s =
        { s with interpolated := ip, body := b, dead := d, spawn_animation := sa } ∧
      b.gravity_scale = s.body.gravity_scale ∧
      (sa = s.spawn_animation ∨
        sa = s.spawn_animation.start 0 1 250 EasingKind.bounceOut) := by
  unfold Player.respawn_dead
  split_ifs
  · exact ⟨_, _, _, _, rfl,
      by simp [Body.set_translation, Body.set_linvel], Or.inr rfl⟩
  · exact ⟨s.interpolated, s.body, s.dead, s.spawn_animation, rfl, rfl, Or.inl rfl⟩

/-- `Camera::warp` only touches the camera. -/
lemma camera_warp_frame (env : Env) (s : GState) :
    ∃ c, Camera.warp env s = { s with camera := c } := by
  unfold Camera.warp Camera.update_current_view
  cases henv : env.camera_view <;> simp only [henv] <;> exact ⟨_, rfl⟩

/-- Tail systems after a `Kill::after(1)` has been attached: the player comes
out `Dead`, with `Kill` removed and `Position` synced. -/
lemma post_chain_killed (env : Env) (t : GState) (hk : t.kill = some 1) :
    ∃ c,
      Camera.tick env (tick_interpolation (tick_physics (Kill.tick t))) =
      { t with
        kill := none, dead := true, camera := c,
        position := t.body.translation,
        interpolated := ⟨t.interpolated.current_position, t.body.translation⟩ } := by
  rw [kill_tick_of_one hk]
  unfold tick_physics tick_interpolation
  exact camera_tick_frame env _

/-- Tail systems with no `Kill` attached: only the camera moves and
`Position` is synced. -/
lemma post_chain_no_kill (env : Env) (t : GState) (hk : t.kill = none) :
    ∃ c,
      Camera.tick env (tick_interpolation (tick_physics (Kill.tick t))) =
      { t with
        camera := c,
        position := t.body.translation,
        interpolated := ⟨t.interpolated.current_position, t.body.translation⟩ } := by
  rw [kill_tick_of_none hk]
  unfold tick_physics tick_interpolation
  exact camera_tick_frame env _

/-! ### Morph-field preservation -/

lemma morph_fields_controls (env : Env) (s : GState) :
    morph_fields (Player.tick_controls env s) = morph_fields s := by
  obtain ⟨b, pl, hc, _, hg, hps⟩ := tick_controls_frame env s
  rw [hc]
  unfold morph_fields
  simp [hg, hps]

lemma morph_fields_kill_detection (env : Env) (s : GState) :
    morph_fields (Player.kill_detection env s) = morph_fields s := by
  obtain ⟨k, hk⟩ := kill_detection_frame env s
  rw [hk]
  rfl

lemma morph_fields_respawn (s : GState) :
    morph_fields (Player.respawn_dead s) = morph_fields s := by
  obtain ⟨ip, b, d, sa, hr, hg, _⟩ := respawn_dead_frame s
  rw [hr]
  unfold morph_fields
  simp [hg]

lemma morph_fields_post_chain (env : Env) (t : GState) :
    morph_fields (Camera.tick env (tick_interpolation (tick_physics (Kill.tick t)))) =
      morph_fields t := by
  obtain ⟨k, d, c, h⟩ := post_chain env t
  rw [h]
  rfl

/-! ### `Player::tick` behavior -/

/-- An `Alive` player overlapping the DEADLY group comes out of `Player::tick`
with `Kill::after(1)` attached and not yet `Dead`. -/
lemma player_tick_kill {env : Env} {s t : GState}
    (ha : s.alive) (hd : env.overlaps_deadly = true)
    (h : Player.tick env s = some t) :
    t.kill = some 1 ∧ t.dead = false ∧ t.checkpoint = s.checkpoint := by
  unfold Player.tick at h
  rw [kill_detection_hit ha hd] at h
  rw [@respawn_dead_of_live { s with kill := some 1 } ha.2] at h
  have hf := morph_check_frame h
  exact ⟨hf.2.2.2.1, hf.2.2.2.2.1.trans ha.2, hf.1⟩

/-- A `Dead` player comes out of `Player::tick` respawned: teleported to the
checkpoint, velocity zeroed, `Dead` removed, spawn animation restarted. -/
lemma player_tick_respawn {env : Env} {s t : GState}
    (hd : s.dead = true) (h : Player.tick env s = some t) :
    t.body.translation = s.checkpoint ∧
    t.body.linvel = Vec2.zero ∧
    t.dead = false ∧
    t.kill = s.kill ∧
    t.checkpoint = s.checkpoint ∧
    t.spawn_animation.restarts > s.spawn_animation.restarts ∧
    t.spawn_animation.startVal = 0 ∧
    t.spawn_animation.endVal = 1 := by
  unfold Player.tick at h
  rw [kill_detection_not_alive (fun hc => Bool.false_ne_true (hc.2.symm.trans hd))] at h
  rw [respawn_dead_of_dead hd] at h
  have hf := morph_check_frame h
  obtain ⟨h1, h2, h3, h4, h5, h6, h7, h8, h9, h10, h11, h12⟩ := hf
  refine ⟨h7, h8, h5, h4, h1, ?_, ?_, ?_⟩
  · rcases h12 with h12 | h12 <;> (rw [h12]; simp only [Tween.start]; omega)
  · rcases h12 with h12 | h12 <;> (rw [h12]; rfl)
  · rcases h12 with h12 | h12 <;> (rw [h12]; rfl)

/-- A live player's body is not moved by `Player::tick`. -/
lemma player_tick_live_translation {env : Env} {s t : GState}
    (hd : s.dead = false) (h : Player.tick env s = some t) :
    t.body.translation = s.body.translation := by
  unfold Player.tick at h
  obtain ⟨k, hk⟩ := kill_detection_frame env s
  rw [hk] at h
  rw [@respawn_dead_of_live { s with kill := k } hd] at h
  exact (morph_check_frame h).2.2.2.2.2.2.1

/-! ## Claim theorems on interpolation and collision groups -/

/-- C8: for every blend factor, the interpolated render position
`InterpolatedPosition::lerp` lies on the segment between `previous_position`
and `current_position`; at 0 it equals the previous position, at 1 the current
one, and out-of-range factors are clamped into [0, 1] before blending. -/
theorem interpolated_lerp_on_segment (ip : InterpolatedPosition) (t : ℚ) :
    onSegment ip.previous_position ip.current_position (ip.lerp t) ∧
    ip.lerp 0 = ip.previous_position ∧
    ip.lerp 1 = ip.current_position ∧
    ip.lerp t = ip.lerp (clamp01 t) := by
  refine ⟨⟨clamp01 t, ?_, ?_, ?_⟩, ?_, ?_, ?_⟩
  · exact le_min (le_max_right t 0) zero_le_one
  · exact min_le_right _ 1
  · simp only [InterpolatedPosition.lerp, Vec2.lerp, clamp01]
    congr 1
    have h0 : (0 : ℚ) ≤ min (max t 0) 1 := le_min (le_max_right t 0) zero_le_one
    have h1 : min (max t 0) 1 ≤ 1 := min_le_right _ 1
    rw [max_eq_left h0, min_eq_left h1]
  · simp [InterpolatedPosition.lerp, Vec2.lerp, Vec2.lerp_unclamped, clamp01]
  · simp only [InterpolatedPosition.lerp, Vec2.lerp, Vec2.lerp_unclamped, clamp01]
    ext <;> simp
  · simp only [InterpolatedPosition.lerp, clamp01]
    congr 1
    have h0 : (0 : ℚ) ≤ min (max t 0) 1 := le_min (le_max_right t 0) zero_le_one
    have h1 : min (max t 0) 1 ≤ 1 := min_le_right _ 1
    rw [max_eq_left h0, min_eq_left h1]

/-- C7: the collision admissibility predicate is the symmetric bitmask test,
and the concrete bitmasks of the death-detection query (memberships PLAYER,
filter DEADLY) and of a deadly spikes collider (memberships DEADLY, filter
PLAYER) satisfy it, so death detection can trigger. -/
theorem collision_groups_death_detection_admissible :
    (∀ a b : InteractionGroups, queries_see a b = queries_see b a) ∧
    queries_see deathDetectionGroups spikesColliderGroups = true ∧
    CollisionGroups.PLAYER &&& CollisionGroups.PLAYER ≠ 0 ∧
    CollisionGroups.DEADLY &&& CollisionGroups.DEADLY ≠ 0 := by
  refine ⟨?_, by decide, by decide, by decide⟩
  intro a b
  simp only [queries_see]
  rw [Bool.eq_iff_iff]
  simp [and_comm]

/-! ### Jump counter dynamics

`Platformer::tick_controls` decides whether a jump executes purely from the
three tick counters and the tick's input/ground sample; the body only receives
the effects.  `counters_step` is that counter automaton, extracted for
reasoning; `tick_controls_body_counters` proves it agrees with the embedded
control code. -/

/-- The three `u8` tick counters of the `Platformer` component. -/
structure JumpCounters where
  remaining_jump_ticks : ℕ
  jump_buffer : ℕ
  air_time : ℕ
deriving DecidableEq

/-- The counter dynamics of one `Platformer::tick_controls` pass: refresh the
jump buffer on a press and the coyote counter on ground contact, execute a
jump when both are nonzero (consuming the buffer and arming the sustain
counter), clear the sustain counter when the button is up, and decay
everything by saturating subtraction. -/
def counters_step (i : Input) (g : Bool) (c : JumpCounters) : JumpCounters × Bool :=
  let buf := if i.jump_just_pressed then Platformer.JUMP_LEEWAY else c.jump_buffer
  let air := if g then Platformer.COYOTE_TIME else c.air_time
  let fired : Bool := decide (0 < buf ∧ 0 < air)
  let rem := if fired then Platformer.JUMP_SUSTAIN else c.remaining_jump_ticks
  let buf2 := if fired then 0 else buf
  let rem2 := if i.jump_down then rem else 0
  (⟨rem2 - 1, buf2 - 1, air - 1⟩, fired)

/-- Iterated counter dynamics, collecting the jump-executed flags. -/
def counters_run : JumpCounters → List (Input × Bool) → List Bool
  | _, [] => []
  | c, ig :: rest =>
    (counters_step ig.1 ig.2 c).2 :: counters_run (counters_step ig.1 ig.2 c).1 rest

/-- The counter state after a sequence of ticks. -/
def counters_run_state : JumpCounters → List (Input × Bool) → JumpCounters
  | c, [] => c
  | c, ig :: rest => counters_run_state (counters_step ig.1 ig.2 c).1 rest

namespace Platformer

/-- Iterated `Platformer::tick_controls` passes over a sequence of per-tick
input and ground samples, collecting the jump-executed flags. -/
def run_controls (p : PlatformerState) (b : Body) :
    List (Input × Bool) → List Bool
  | [] => []
  | ig :: rest =>
    (tick_controls_body ig.1 ig.2 p b).2 ::
      run_controls (tick_controls_body ig.1 ig.2 p b).1.1
        (tick_controls_body ig.1 ig.2 p b).1.2 rest

end Platformer

/-- An input sample pressing (and holding) jump. -/
def press_input : Input := ⟨Vec2.zero, true, true⟩

/-- An input sample with no buttons and a centered joystick. -/
def idle_input : Input := ⟨Vec2.zero, false, false⟩

/-- The counters thread of one platformer controls pass agrees with
`counters_step`. -/
lemma tick_controls_body_counters (i : Input) (g : Bool) (p : PlatformerState) (b : Body) :
    ((Platformer.tick_controls_body i g p b).1.1.remaining_jump_ticks,
     (Platformer.tick_controls_body i g p b).1.1.jump_buffer,
     (Platformer.tick_controls_body i g p b).1.1.air_time,
     (Platformer.tick_controls_body i g p b).2) =
    ((counters_step i g
        ⟨p.remaining_jump_ticks, p.jump_buffer, p.air_time⟩).1.remaining_jump_ticks,
     (counters_step i g
        ⟨p.remaining_jump_ticks, p.jump_buffer, p.air_time⟩).1.jump_buffer,
     (counters_step i g
        ⟨p.remaining_jump_ticks, p.jump_buffer, p.air_time⟩).1.air_time,
     (counters_step i g ⟨p.remaining_jump_ticks, p.jump_buffer, p.air_time⟩).2) := by
  simp only [Platformer.tick_controls_body, counters_step,
    apply_ite PlatformerState.remaining_jump_ticks,
    apply_ite PlatformerState.jump_buffer,
    apply_ite PlatformerState.air_time,
    ite_self, ite_not]

/-- Iterated controls passes agree with the iterated counter automaton,
regardless of the body they act on. -/
lemma run_controls_counters (p : PlatformerState) (b : Body)
    (igs : List (Input × Bool)) :
    Platformer.run_controls p b igs =
      counters_run ⟨p.remaining_jump_ticks, p.jump_buffer, p.air_time⟩ igs := by
  induction igs generalizing p b with
  | nil => rfl
  | cons ig rest ih =>
    have hc := tick_controls_body_counters ig.1 ig.2 p b
    simp only [Prod.mk.injEq] at hc
    obtain ⟨h1, h2, h3, h4⟩ := hc
    simp only [Platformer.run_controls, counters_run, h4]
    congr 1
    rw [ih]
    have he : (⟨(Platformer.tick_controls_body ig.1 ig.2 p b).1.1.remaining_jump_ticks,
        (Platformer.tick_controls_body ig.1 ig.2 p b).1.1.jump_buffer,
        (Platformer.tick_controls_body ig.1 ig.2 p b).1.1.air_time⟩ : JumpCounters) =
        (counters_step ig.1 ig.2
          ⟨p.remaining_jump_ticks, p.jump_buffer, p.air_time⟩).1 := by
      rw [h1, h2, h3]
    rw [he]

/-- Idle airborne ticks with no pending sustain never execute a jump and
decay the buffer. -/
lemma counters_idle_air (j : ℕ) (c : JumpCounters)
    (hair : c.air_time = 0) (hrem : c.remaining_jump_ticks = 0) :
    counters_run c (List.replicate j (idle_input, false)) = List.replicate j false ∧
    counters_run_state c (List.replicate j (idle_input, false)) =
      ⟨0, c.jump_buffer - j, 0⟩ := by
  induction j generalizing c with
  | zero =>
    obtain ⟨r, bu, a⟩ := c
    simp_all [counters_run, counters_run_state]
  | succ n ih =>
    have hstep : counters_step idle_input false c = (⟨0, c.jump_buffer - 1, 0⟩, false) := by
      simp [counters_step, idle_input, hair, hrem]
    constructor
    · simp only [List.replicate_succ, counters_run, hstep]
      rw [(ih ⟨0, c.jump_buffer - 1, 0⟩ rfl rfl).1]
    · simp only [List.replicate_succ, counters_run_state, hstep]
      rw [(ih ⟨0, c.jump_buffer - 1, 0⟩ rfl rfl).2]
      rw [show (⟨0, c.jump_buffer - 1, 0⟩ : JumpCounters).jump_buffer =
        c.jump_buffer - 1 from rfl]
      rw [show c.jump_buffer - 1 - n = c.jump_buffer - (n + 1) from by omega]

/-- Idle airborne ticks with an empty jump buffer never execute a jump and
decay the coyote counter. -/
lemma counters_idle_air_nobuf (j : ℕ) (c : JumpCounters)
    (hbuf : c.jump_buffer = 0) (hrem : c.remaining_jump_ticks = 0) :
    counters_run c (List.replicate j (idle_input, false)) = List.replicate j false ∧
    counters_run_state c (List.replicate j (idle_input, false)) =
      ⟨0, 0, c.air_time - j⟩ := by
  induction j generalizing c with
  | zero =>
    obtain ⟨r, bu, a⟩ := c
    simp_all [counters_run, counters_run_state]
  | succ n ih =>
    have hstep : counters_step idle_input false c = (⟨0, 0, c.air_time - 1⟩, false) := by
      simp [counters_step, idle_input, hbuf, hrem]
    constructor
    · simp only [List.replicate_succ, counters_run, hstep]
      rw [(ih ⟨0, 0, c.air_time - 1⟩ rfl rfl).1]
    · simp only [List.replicate_succ, counters_run_state, hstep]
      rw [(ih ⟨0, 0, c.air_time - 1⟩ rfl rfl).2]
      rw [show (⟨0, 0, c.air_time - 1⟩ : JumpCounters).air_time =
        c.air_time - 1 from rfl]
      rw [show c.air_time - 1 - n = c.air_time - (n + 1) from by omega]

lemma counters_run_append (c : JumpCounters) (l1 l2 : List (Input × Bool)) :
    counters_run c (l1 ++ l2) =
      counters_run c l1 ++ counters_run (counters_run_state c l1) l2 := by
  induction l1 generalizing c with
  | nil => rfl
  | cons ig rest ih =>
    simp only [List.cons_append, List.append_eq, counters_run, counters_run_state, ih]

/-- When the jump branch executes, the vertical velocity is zeroed (the later
horizontal decay preserves it). -/
lemma tick_controls_body_jump_zeroes_y (i : Input) (g : Bool)
    (p : PlatformerState) (b : Body)
    (hf : (Platformer.tick_controls_body i g p b).2 = true) :
    (Platformer.tick_controls_body i g p b).1.2.linvel.y = 0 := by
  simp only [Platformer.tick_controls_body] at hf ⊢
  rw [hf]
  simp [Body.apply_force, Body.set_linvel, apply_ite Body.linvel]

/-- When the jump executes, the buffer is consumed and (with the button held)
the sustain counter is armed. -/
lemma counters_step_fired_effects (i : Input) (g : Bool) (c : JumpCounters)
    (hf : (counters_step i g c).2 = true) :
    (counters_step i g c).1.jump_buffer = 0 ∧
    (i.jump_down = true →
      (counters_step i g c).1.remaining_jump_ticks = Platformer.JUMP_SUSTAIN - 1) := by
  simp only [counters_step] at hf ⊢
  rw [hf]
  exact ⟨by simp, fun hd => by simp [hd]⟩

/-- A jump press `k` ticks before landing executes a jump at the landing tick
exactly when `k` is inside the `JUMP_LEEWAY` window, and at no other tick of
the scenario. -/
lemma buffer_scenario (k : ℕ) (hk : 1 ≤ k) (b : Body) :
    Platformer.run_controls PlatformerState.new b
      ((press_input, false) :: (List.replicate (k - 1) (idle_input, false) ++
        [(idle_input, true)])) =
      false :: (List.replicate (k - 1) false ++
        [decide (k < Platformer.JUMP_LEEWAY)]) := by
  rw [run_controls_counters]
  rw [show (⟨PlatformerState.new.remaining_jump_ticks, PlatformerState.new.jump_buffer,
      PlatformerState.new.air_time⟩ : JumpCounters) = ⟨0, 0, 0⟩ from rfl]
  simp only [counters_run]
  rw [show counters_step press_input false ⟨0, 0, 0⟩ = (⟨0, 7, 0⟩, false) from rfl]
  rw [counters_run_append]
  rw [(counters_idle_air (k - 1) ⟨0, 7, 0⟩ rfl rfl).1]
  rw [(counters_idle_air (k - 1) ⟨0, 7, 0⟩ rfl rfl).2]
  simp only [counters_run]
  rw [show (counters_step idle_input true
      ⟨0, (⟨0, 7, 0⟩ : JumpCounters).jump_buffer - (k - 1), 0⟩).2 =
    decide (0 < 7 - (k - 1) ∧ 0 < 10) from rfl]
  rw [decide_eq_decide.mpr
    (show (0 < 7 - (k - 1) ∧ 0 < 10) ↔ k < Platformer.JUMP_LEEWAY from by
      unfold Platformer.JUMP_LEEWAY
      omega)]

/-- A jump press `m` ticks after last standing on ground executes a jump at
the press tick exactly when `m` is inside the `COYOTE_TIME` window, and at no
other tick of the scenario. -/
lemma coyote_scenario (m : ℕ) (hm : 1 ≤ m) (b : Body) :
    Platformer.run_controls PlatformerState.new b
      ((idle_input, true) :: (List.replicate (m - 1) (idle_input, false) ++
        [(press_input, false)])) =
      false :: (List.replicate (m - 1) false ++
        [decide (m < Platformer.COYOTE_TIME)]) := by
  rw [run_controls_counters]
  rw [show (⟨PlatformerState.new.remaining_jump_ticks, PlatformerState.new.jump_buffer,
      PlatformerState.new.air_time⟩ : JumpCounters) = ⟨0, 0, 0⟩ from rfl]
  simp only [counters_run]
  rw [show counters_step idle_input true ⟨0, 0, 0⟩ = (⟨0, 0, 9⟩, false) from rfl]
  rw [counters_run_append]
  rw [(counters_idle_air_nobuf (m - 1) ⟨0, 0, 9⟩ rfl rfl).1]
  rw [(counters_idle_air_nobuf (m - 1) ⟨0, 0, 9⟩ rfl rfl).2]
  simp only [counters_run]
  rw [show (counters_step press_input false
      ⟨0, 0, (⟨0, 0, 9⟩ : JumpCounters).air_time - (m - 1)⟩).2 =
    decide (0 < 8 ∧ 0 < 9 - (m - 1)) from rfl]
  rw [decide_eq_decide.mpr
    (show (0 < 8 ∧ 0 < 9 - (m - 1)) ↔ m < Platformer.COYOTE_TIME from by
      unfold Platformer.COYOTE_TIME
      omega)]

/-! ### Trigger edge-firing lemmas -/

/-- One trigger run leaves the trigger recording whether the overlap held. -/
lemma trigger_tick_one_state (tr : Trigger) (o : Option ℕ) :
    (Trigger.tick_one tr o).1 = ⟨tr.target, tr.method, o.isSome⟩ := by
  obtain ⟨a, b, c⟩ := tr
  cases o with
  | none => rfl
  | some src =>
    unfold Trigger.tick_one
    by_cases ht : c <;> simp_all

/-- The number of `Triggered` posts equals the number of false-to-true
transitions of the overlap condition. -/
lemma trigger_run_length (tr : Trigger) (os : List (Option ℕ)) :
    (Trigger.run tr os).length =
      rising_edges tr.triggered_this_tick (os.map Option.isSome) := by
  induction os generalizing tr with
  | nil => rfl
  | cons o rest ih =>
    simp only [Trigger.run, List.length_append, List.map_cons, rising_edges,
      trigger_tick_one_state, ih]
    cases o with
    | none =>
      by_cases ht : tr.triggered_this_tick <;> simp [Trigger.tick_one, ht]
    | some src =>
      by_cases ht : tr.triggered_this_tick <;> simp [Trigger.tick_one, ht]

/-- While `triggered_this_tick` holds and the overlap persists, nothing is
posted. -/
lemma trigger_run_absorbed (tr : Trigger) (ht : tr.triggered_this_tick = true)
    (n src : ℕ) :
    Trigger.run tr (List.replicate n (some src)) = [] := by
  induction n generalizing tr with
  | zero => rfl
  | succ k ih =>
    simp only [List.replicate_succ, Trigger.run, trigger_tick_one_state]
    rw [Trigger.tick_one]
    simp only [ht]
    simp only [Option.isSome_some]
    rw [ih ⟨tr.target, tr.method, true⟩ rfl]
    simp

/-- A not-yet-triggered trigger posts exactly once over any stretch of
continuous overlap, at the first run. -/
lemma trigger_run_replicate (tr : Trigger) (hf : tr.triggered_this_tick = false)
    (n src : ℕ) (hn : 1 ≤ n) :
    Trigger.run tr (List.replicate n (some src)) = [⟨tr.method, src, 0⟩] := by
  cases n with
  | zero => omega
  | succ k =>
    simp only [List.replicate_succ, Trigger.run, trigger_tick_one_state]
    rw [Trigger.tick_one]
    simp only [hf]
    simp only [Option.isSome_some]
    rw [trigger_run_absorbed ⟨tr.target, tr.method, true⟩ rfl k src]
    simp

lemma trigger_run_append (tr : Trigger) (os1 os2 : List (Option ℕ)) :
    Trigger.run tr (os1 ++ os2) =
      Trigger.run tr os1 ++ Trigger.run (Trigger.run_state tr os1) os2 := by
  induction os1 generalizing tr with
  | nil => rfl
  | cons o rest ih =>
    simp only [List.cons_append, List.append_eq, Trigger.run, Trigger.run_state,
      ih, List.append_assoc]

lemma trigger_run_state_replicate (tr : Trigger) (n src : ℕ) (hn : 1 ≤ n) :
    Trigger.run_state tr (List.replicate n (some src)) =
      ⟨tr.target, tr.method, true⟩ := by
  induction n generalizing tr with
  | zero => omega
  | succ k ih =>
    simp only [List.replicate_succ, Trigger.run_state, trigger_tick_one_state,
      Option.isSome_some]
    cases k with
    | zero => rfl
    | succ k2 => exact ih ⟨tr.target, tr.method, true⟩ (by omega)

/-- C2: an edge-triggered `Trigger` whose collider overlap (under its own
collision filter) holds for `n ≥ 1` consecutive runs posts exactly one
`Triggered` to its target, at the first overlapping run; after the overlap
ceases for a run and then holds again for `m ≥ 1` runs, exactly one more is
posted — and over any overlap sequence, the number of posts equals the number
of false-to-true transitions of the overlap, never once per overlapping
tick. -/
theorem trigger_fires_once_per_entry (target method src1 src2 n m : ℕ)
    (hn : 1 ≤ n) (hm : 1 ≤ m) :
    Trigger.run (Trigger.new target method) (List.replicate n (some src1)) =
      [⟨method, src1, 0⟩] ∧
    Trigger.run (Trigger.new target method)
      (List.replicate n (some src1) ++ none :: List.replicate m (some src2)) =
      [⟨method, src1, 0⟩, ⟨method, src2, 0⟩] ∧
    (∀ os : List (Option ℕ),
      (Trigger.run (Trigger.new target method) os).length =
        rising_edges false (os.map Option.isSome)) := by
  refine ⟨trigger_run_replicate _ rfl n src1 hn, ?_,
    fun os => trigger_run_length (Trigger.new target method) os⟩
  rw [trigger_run_append, trigger_run_state_replicate _ n src1 hn,
    trigger_run_replicate _ rfl n src1 hn]
  show _ ++ Trigger.run ⟨target, method, true⟩
      (none :: List.replicate m (some src2)) = _
  rw [Trigger.run]
  rw [show Trigger.tick_one ⟨target, method, true⟩ none =
    (⟨target, method, false⟩, none) from rfl]
  rw [trigger_run_replicate ⟨target, method, false⟩ rfl m src2 hm]
  rfl

/-- C2 (witness): a trigger overlapped for 3 runs, released for one, and
overlapped again for 2 runs posts exactly twice. -/
theorem trigger_fires_once_per_entry_witness :
    ((1 ≤ 3 ∧ 1 ≤ 2) ∧
      Trigger.run (Trigger.new 0 5) (List.replicate 3 (some 7)) = [⟨5, 7, 0⟩]) ∧
    Trigger.run (Trigger.new 0 5)
      (List.replicate 3 (some 7) ++ none :: List.replicate 2 (some 9)) =
      [⟨5, 7, 0⟩, ⟨5, 9, 0⟩] :=
  ⟨⟨⟨by decide, by decide⟩,
    (trigger_fires_once_per_entry 0 5 7 9 3 2 (by decide) (by decide)).1⟩,
    (trigger_fires_once_per_entry 0 5 7 9 3 2 (by decide) (by decide)).2.1⟩

/-- C6: for a platformer player, the jump branch of
`Platformer::tick_controls` executes exactly when the (refreshed) jump-buffer
and coyote-time counters are simultaneously nonzero — consuming the buffer,
zeroing the vertical velocity, and arming the jump-sustain counter — so a
jump input registered up to `JUMP_LEEWAY` (8) ticks before landing, or up to
`COYOTE_TIME` (10) ticks after last being grounded, still executes a jump at
the landing/press tick, and one outside both windows does not (for any body
state). -/
theorem jump_buffer_coyote_window (k m : ℕ) (hk : 1 ≤ k) (hm : 1 ≤ m) :
    (∀ (i : Input) (g : Bool) (p : PlatformerState) (b : Body),
      ((Platformer.tick_controls_body i g p b).2 = true ↔
        (0 < (if i.jump_just_pressed = true then Platformer.JUMP_LEEWAY
              else p.jump_buffer) ∧
         0 < (if g = true then Platformer.COYOTE_TIME else p.air_time))) ∧
      ((Platformer.tick_controls_body i g p b).2 = true →
        (Platformer.tick_controls_body i g p b).1.1.jump_buffer = 0 ∧
        (Platformer.tick_controls_body i g p b).1.2.linvel.y = 0 ∧
        (i.jump_down = true →
          (Platformer.tick_controls_body i g p b).1.1.remaining_jump_ticks =
            Platformer.JUMP_SUSTAIN - 1))) ∧
    (∀ b : Body,
      Platformer.run_controls PlatformerState.new b
        ((press_input, false) :: (List.replicate (k - 1) (idle_input, false) ++
          [(idle_input, true)])) =
        false :: (List.replicate (k - 1) false ++
          [decide (k < Platformer.JUMP_LEEWAY)])) ∧
    (∀ b : Body,
      Platformer.run_controls PlatformerState.new b
        ((idle_input, true) :: (List.replicate (m - 1) (idle_input, false) ++
          [(press_input, false)])) =
        false :: (List.replicate (m - 1) false ++
          [decide (m < Platformer.COYOTE_TIME)])) := by
  refine ⟨fun i g p b => ?_, fun b => buffer_scenario k hk b,
    fun b => coyote_scenario m hm b⟩
  have hc := tick_controls_body_counters i g p b
  simp only [Prod.mk.injEq] at hc
  obtain ⟨h1, h2, h3, h4⟩ := hc
  constructor
  · rw [h4]
    rw [show (counters_step i g ⟨p.remaining_jump_ticks, p.jump_buffer, p.air_time⟩).2 =
      decide ((0 < if i.jump_just_pressed = true then Platformer.JUMP_LEEWAY
          else p.jump_buffer) ∧
        (0 < if g = true then Platformer.COYOTE_TIME else p.air_time)) from rfl]
    exact decide_eq_true_iff
  · intro hf
    have hf' : (counters_step i g
        ⟨p.remaining_jump_ticks, p.jump_buffer, p.air_time⟩).2 = true := by
      rw [← h4]; exact hf
    have he := counters_step_fired_effects i g
      ⟨p.remaining_jump_ticks, p.jump_buffer, p.air_time⟩ hf'
    refine ⟨by rw [h2]; exact he.1, tick_controls_body_jump_zeroes_y i g p b hf,
      fun hd => by rw [h1]; exact he.2 hd⟩

/-- A body at rest at the origin. -/
def zero_body : Body := ⟨Vec2.zero, Vec2.zero, Vec2.zero, 1⟩

/-- C6 (witness): the jump-window theorem at concrete window offsets — a
press 3 ticks before landing (inside the 8-tick buffer window) and a press 12
ticks after last grounding (outside the 10-tick coyote window). -/
theorem jump_buffer_coyote_window_witness :
    ((1 ≤ 3 ∧ 1 ≤ 12) ∧
      Platformer.run_controls PlatformerState.new zero_body
        ((press_input, false) :: (List.replicate 2 (idle_input, false) ++
          [(idle_input, true)])) =
        false :: (List.replicate 2 false ++ [decide (3 < Platformer.JUMP_LEEWAY)])) ∧
    Platformer.run_controls PlatformerState.new zero_body
      ((idle_input, true) :: (List.replicate 11 (idle_input, false) ++
        [(press_input, false)])) =
      false :: (List.replicate 11 false ++ [decide (12 < Platformer.COYOTE_TIME)]) :=
  ⟨⟨⟨by decide, by decide⟩,
    (jump_buffer_coyote_window 3 12 (by decide) (by decide)).2.1 zero_body⟩,
    (jump_buffer_coyote_window 3 12 (by decide) (by decide)).2.2 zero_body⟩

/-! ## Concrete states used by witnesses and counterexamples -/

/-- A neutral input sample: centered joystick, no jump. -/
def quiet_input : Input := ⟨Vec2.zero, false, false⟩

/-- An environment with no spatial query hits. -/
def quiet_env : Env := ⟨quiet_input, false, none, false, none⟩

/-- An environment whose DEADLY query hits. -/
def deadly_env : Env := ⟨quiet_input, true, none, false, none⟩

/-- An environment whose MORPH_ZONES query hits a `PlatformerZone` collider
(user data 2). -/
def platformer_zone_env : Env := ⟨quiet_input, false, some 2, false, none⟩

/-- A live unshaped player at translation (3, 4) with checkpoint (1, 2); the
checkpoint entity sits at (5, 6) and carries a pending `Triggered` with the
set-respawn-position method, sourced from the player entity (id 7). -/
def base_state : GState := {
  checkpoint := ⟨1, 2⟩,
  spawn_animation := Tween.new 1,
  position := ⟨3, 4⟩,
  interpolated := InterpolatedPosition.new ⟨3, 4⟩,
  size := Unshaped.size,
  body := ⟨⟨3, 4⟩, Vec2.zero, Vec2.zero, 0⟩,
  collider := ⟨Shape.ball Unshaped.RADIUS, 8 / 10⟩,
  morph := Morph.Unshaped,
  has_unshaped := true,
  platformer := none,
  kill := none,
  dead := false,
  camera := Camera.new,
  checkpoint_entity_position := ⟨5, 6⟩,
  checkpoint_entity_triggered := some ⟨Checkpoint.SET_RESPAWN_POSITION, 7, 0⟩,
  respawn_position := none }

/-- An abstract physics step moving the body one unit to the right, used to
observe where the step happens inside the tick. -/
def unit_step (b : Body) : Body := { b with translation := b.translation.add ⟨1, 0⟩ }

/-! ## Claims C1, C4, C5 -/

/-- C1: an `Alive` player overlapping DEADLY during a tick has `Dead` (and no
longer `Kill`) at that tick's end; at the end of the next tick its `Position`
and body translation equal the stored checkpoint, its velocity is zero, `Dead`
is removed and the spawn animation is restarted — for every pre-death
position/velocity.  Moreover this is the only path that writes the body
translation: a tick never moves a live player's body, and a tick on a `Dead`
player (with no pending `Kill`) always teleports it to the checkpoint. -/
theorem respawn_correct :
    (∀ env1 env2 s s1 s2,
      s.alive → env1.overlaps_deadly = true →
      tick_systems env1 s = some s1 →
      tick_systems env2 s1 = some s2 →
      (s1.dead = true ∧ s1.kill = none) ∧
      s2.position = s.checkpoint ∧
      s2.body.translation = s.checkpoint ∧
      s2.body.linvel = Vec2.zero ∧
      s2.dead = false ∧
      s2.spawn_animation.restarts > s1.spawn_animation.restarts ∧
      s2.spawn_animation.startVal = 0 ∧
      s2.spawn_animation.endVal = 1) ∧
    (∀ env s s', tick_systems env s = some s' →
      (s.dead = false → s'.body.translation = s.body.translation) ∧
      (s.dead = true → s.kill = none →
        s'.body.translation = s.checkpoint ∧
        s'.body.linvel = Vec2.zero ∧ s'.dead = false)) := by
  constructor
  · intro env1 env2 s s1 s2 ha hdl h1 h2
    obtain ⟨t1, hpt1, hs1⟩ := tick_systems_eq h1
    obtain ⟨b, pl, hc, hbt, hbg, hps⟩ := tick_controls_frame env1 s
    rw [hc] at hpt1
    have hk := player_tick_kill
      (show ({ s with body := b, platformer := pl } : GState).alive from ⟨ha.1, ha.2⟩)
      hdl hpt1
    obtain ⟨c1, hpost1⟩ := post_chain_killed env1 t1 hk.1
    rw [hpost1] at hs1
    have hs1dead : s1.dead = true := by rw [hs1]
    have hs1kill : s1.kill = none := by rw [hs1]
    have hs1cp : s1.checkpoint = s.checkpoint := by rw [hs1]; exact hk.2.2
    obtain ⟨t2, hpt2, hs2⟩ := tick_systems_eq h2
    have hnotalive : ¬s1.alive :=
      fun hc2 => Bool.false_ne_true (hc2.2.symm.trans hs1dead)
    rw [tick_controls_not_alive env2 s1 hnotalive] at hpt2
    have hr := player_tick_respawn hs1dead hpt2
    obtain ⟨c2, hpost2⟩ := post_chain_no_kill env2 t2 (hr.2.2.2.1.trans hs1kill)
    rw [hpost2] at hs2
    refine ⟨⟨hs1dead, hs1kill⟩, ?_, ?_, ?_, ?_, ?_, ?_, ?_⟩
    · rw [hs2]; show t2.body.translation = s.checkpoint; rw [hr.1, hs1cp]
    · rw [hs2]; show t2.body.translation = s.checkpoint; rw [hr.1, hs1cp]
    · rw [hs2]; exact hr.2.1
    · rw [hs2]; exact hr.2.2.1
    · rw [hs2]; exact hr.2.2.2.2.2.1
    · rw [hs2]; exact hr.2.2.2.2.2.2.1
    · rw [hs2]; exact hr.2.2.2.2.2.2.2
  · intro env s s' h
    obtain ⟨t, hpt, hs'⟩ := tick_systems_eq h
    constructor
    · intro hd
      obtain ⟨b, pl, hc, hbt, _, _⟩ := tick_controls_frame env s
      rw [hc] at hpt
      have hlt := player_tick_live_translation
        (show ({ s with body := b, platformer := pl } : GState).dead = false from hd) hpt
      obtain ⟨k, d, c, hpost⟩ := post_chain env t
      rw [hpost] at hs'
      rw [hs']
      show t.body.translation = s.body.translation
      rw [hlt]
      exact hbt
    · intro hd hkn
      have hnot : ¬s.alive := fun hc2 => Bool.false_ne_true (hc2.2.symm.trans hd)
      rw [tick_controls_not_alive env s hnot] at hpt
      have hr := player_tick_respawn hd hpt
      obtain ⟨c, hpost⟩ := post_chain_no_kill env t (hr.2.2.2.1.trans hkn)
      rw [hpost] at hs'
      rw [hs']
      exact ⟨hr.1, hr.2.1, hr.2.2.1⟩

/-- The state a tick on `killed_state` under `quiet_env` produces: the
player respawned at its checkpoint. -/
def respawned_state : GState :=
  { base_state with
    position := ⟨1, 2⟩,
    interpolated := ⟨⟨1, 2⟩, ⟨1, 2⟩⟩,
    body := ⟨⟨1, 2⟩, Vec2.zero, Vec2.zero, 0⟩,
    spawn_animation := ⟨0, 1, 250, EasingKind.bounceOut, 1⟩ }

/-- The state a tick on `base_state` under `deadly_env` produces: the player
marked `Dead`. -/
def killed_state : GState := { base_state with dead := true }

/-- C1 (witness): the respawn theorem at a concrete player killed by a DEADLY
overlap and respawned on the next tick. -/
theorem respawn_correct_witness :
    base_state.alive ∧
    deadly_env.overlaps_deadly = true ∧
    tick_systems deadly_env base_state = some killed_state ∧
    tick_systems quiet_env killed_state = some respawned_state ∧
    (killed_state.dead = true ∧ killed_state.kill = none) ∧
    respawned_state.position = base_state.checkpoint ∧
    respawned_state.body.linvel = Vec2.zero := by
  have h1 : tick_systems deadly_env base_state = some killed_state := by
    norm_num [tick_systems, Player.tick, Player.tick_controls,
      Platformer.tick_controls, Unshaped.tick_controls, Player.kill_detection,
      Player.respawn_dead, Player.morph_check, Player.zone_morph, Morph.FROM_U8,
      Kill.tick, tick_physics, tick_interpolation, Camera.tick,
      Camera.update_current_view, GState.alive, Vec2.magnitude_squared, Vec2.scale,
      Vec2.zero, Body.apply_force, Body.set_linvel, deadly_env, quiet_input,
      base_state, killed_state, Unshaped.size, Unshaped.RADIUS, Tween.new,
      Camera.new, InterpolatedPosition.new]
  have h2 : tick_systems quiet_env killed_state = some respawned_state := by
    norm_num [tick_systems, Player.tick, Player.tick_controls,
      Platformer.tick_controls, Unshaped.tick_controls, Player.kill_detection,
      Player.respawn_dead, Player.morph_check, Player.zone_morph, Morph.FROM_U8,
      Kill.tick, tick_physics, tick_interpolation, Camera.tick,
      Camera.update_current_view, GState.alive, Vec2.magnitude_squared, Vec2.scale,
      Vec2.zero, Body.apply_force, Body.set_linvel, Body.set_translation,
      InterpolatedPosition.set, InterpolatedPosition.reset, Tween.start, quiet_env,
      quiet_input, base_state, killed_state, respawned_state, Unshaped.size,
      Unshaped.RADIUS, Tween.new, Camera.new, InterpolatedPosition.new]
  have hmain := respawn_correct.1 deadly_env quiet_env base_state killed_state
    respawned_state (by decide) rfl h1 h2
  exact ⟨by decide, rfl, h1, h2, hmain.1, hmain.2.1, hmain.2.2.2.1⟩

/-- C3: a successful tick in a well-formed environment that either starts
from a morph-consistent state or performs a morph transition ends
morph-consistent: exactly one of the `Unshaped`/`Platformer` components is
attached (never both, never neither), and the `Size`, collider shape, collider
restitution and body gravity scale all equal the current morph's physics
parameters.  This holds for every zone-overlap sequence, since the
environment and state are universally quantified. -/
theorem morph_transition_atomic (env : Env) (s s' : GState) (hwf : env.wf)
    (h : tick_systems env s = some s')
    (hstart : morph_consistent s ∨ s'.morph ≠ s.morph) :
    morph_consistent s' ∧
    exactly_one_morph_component s' ∧
    (s'.morph = Morph.Unshaped → matches_params s' Unshaped.physics_params) ∧
    (s'.morph = Morph.Platformer → matches_params s' Platformer.physics_params) := by
  obtain ⟨t, hpt, hs'⟩ := tick_systems_eq h
  unfold Player.tick at hpt
  have hmfr : morph_fields
      (Player.respawn_dead (Player.kill_detection env (Player.tick_controls env s))) =
      morph_fields s := by
    rw [morph_fields_respawn, morph_fields_kill_detection, morph_fields_controls]
  have hpostf : morph_fields s' = morph_fields t := by
    rw [hs']
    exact morph_fields_post_chain env t
  obtain ⟨zm, hz, hzm⟩ := zone_morph_wf2 hwf
  have hcons : morph_consistent s' := by
    by_cases he :
      zm = (Player.respawn_dead (Player.kill_detection env (Player.tick_controls env s))).morph
    · rw [morph_check_of_same hz he] at hpt
      have ht : t = Player.respawn_dead (Player.kill_detection env (Player.tick_controls env s)) :=
        (Option.some.inj hpt).symm
      have hfields : morph_fields s' = morph_fields s := by
        rw [hpostf, ht, hmfr]
      rcases hstart with hm | hne
      · exact (morph_consistent_congr hfields).mpr hm
      · exact absurd (morph_fields_morph hfields) hne
    · obtain ⟨t', ht', hm, hcons'⟩ := morph_check_of_changed hz he hzm
      rw [hpt] at ht'
      have ht : t' = t := (Option.some.inj ht').symm
      rw [ht] at hcons'
      exact (morph_consistent_congr hpostf).mpr hcons'
  refine ⟨hcons, morph_consistent_exactly_one hcons, ?_, ?_⟩
  · intro hu
    rcases hcons with ⟨_, _, _, hp⟩ | ⟨hm, _, _, _⟩
    · exact hp
    · rw [hu] at hm
      exact absurd hm (by decide)
  · intro hu
    rcases hcons with ⟨hm, _, _, _⟩ | ⟨_, _, _, hp⟩
    · rw [hu] at hm
      exact absurd hm (by decide)
    · exact hp

/-- The state a tick on `base_state` under `platformer_zone_env` produces:
the player morphed into the platformer. -/
def morphed_state : GState :=
  { base_state with
    morph := Morph.Platformer,
    has_unshaped := false,
    platformer := some PlatformerState.new,
    collider := ⟨Shape.cuboid ⟨2 / 5, 2 / 5⟩, 0⟩,
    body := ⟨⟨3, 4⟩, Vec2.zero, Vec2.zero, 1⟩,
    size := Platformer.SIZE,
    spawn_animation := ⟨0, 1, 250, EasingKind.bounceOut, 1⟩ }

/-- C3 (witness): the morph-atomicity theorem at a concrete unshaped player
crossing into a platformer zone. -/
theorem morph_transition_atomic_witness :
    platformer_zone_env.wf ∧
    tick_systems platformer_zone_env base_state = some morphed_state ∧
    morphed_state.morph ≠ base_state.morph ∧
    morph_consistent morphed_state ∧
    exactly_one_morph_component morphed_state := by
  have h : tick_systems platformer_zone_env base_state = some morphed_state := by
    norm_num [tick_systems, Player.tick, Player.tick_controls,
      Platformer.tick_controls, Unshaped.tick_controls, Player.kill_detection,
      Player.respawn_dead, Player.morph_check, Player.zone_morph, Morph.FROM_U8,
      Player.morph_fn, Player.apply_physics_params, Platformer.physics_params,
      Platformer.SIZE, PlatformerState.new, Kill.tick, tick_physics,
      tick_interpolation, Camera.tick, Camera.update_current_view, GState.alive,
      Vec2.magnitude_squared, Vec2.scale, Vec2.zero, Body.apply_force,
      Body.set_linvel, Body.set_gravity_scale, Tween.start, platformer_zone_env,
      quiet_input, base_state, morphed_state, Unshaped.size, Unshaped.RADIUS,
      Tween.new, Camera.new, InterpolatedPosition.new,
      show Morph.Platformer ≠ Morph.Unshaped from by decide]
  have hne : morphed_state.morph ≠ base_state.morph := by decide
  have hmain := morph_transition_atomic platformer_zone_env base_state
    morphed_state (by decide) h (Or.inr hne)
  exact ⟨by decide, h, hne, hmain.1, hmain.2.1⟩

/-- C9: for every well-formed environment and spawn position, `Player::spawn`
succeeds and leaves the player with a morph different from `Morph::None` —
the `Morph::None` attached at spawn is resolved by the `Player::tick` run
inside `Player::spawn`, defaulting to `Unshaped` when no morph zone overlaps
the spawn point — and the spawned player is morph-consistent. -/
theorem spawn_resolves_morph (env : Env) (pos : Vec2) (hwf : env.wf) :
    ∃ s', Player.spawn env pos = some s' ∧
      s'.morph ≠ Morph.None ∧
      morph_consistent s' ∧
      exactly_one_morph_component s' ∧
      (env.morph_zone = none → s'.morph = Morph.Unshaped) := by
  unfold Player.spawn
  obtain ⟨c, hwarp⟩ := camera_warp_frame env (Player.spawn_components pos)
  rw [hwarp]
  unfold Player.tick
  obtain ⟨k, hk⟩ :=
    kill_detection_frame env { Player.spawn_components pos with camera := c }
  rw [hk]
  rw [@respawn_dead_of_live
    { Player.spawn_components pos with camera := c, kill := k } rfl]
  obtain ⟨zm, hz, hzm⟩ := zone_morph_wf2 hwf
  have hne : zm ≠ ({ Player.spawn_components pos with camera := c, kill := k } : GState).morph :=
    fun hh => hzm hh
  obtain ⟨s', hs', hm, hcons⟩ := morph_check_of_changed hz hne hzm
  rw [hs']
  refine ⟨s', rfl, ?_, hcons, morph_consistent_exactly_one hcons, ?_⟩
  · rw [hm]
    exact hzm
  · intro hnone
    rw [hnone] at hz
    have h0 : (some Morph.Unshaped : Option Morph) = some zm := hz
    rw [hm]
    exact (Option.some.inj h0).symm

/-- C9 (witness): spawning at the origin in an environment with no morph-zone
overlap yields an unshaped, morph-consistent player. -/
theorem spawn_resolves_morph_witness :
    quiet_env.wf ∧
    (∃ s', Player.spawn quiet_env ⟨0, 0⟩ = some s' ∧
      s'.morph ≠ Morph.None ∧
      morph_consistent s' ∧
      exactly_one_morph_component s' ∧
      (quiet_env.morph_zone = none → s'.morph = Morph.Unshaped)) :=
  ⟨by decide, spawn_resolves_morph quiet_env ⟨0, 0⟩ (by decide)⟩

/-- C4 (amended): within `State::update` the physics step runs last, after
`tick_systems` (controls; morph/death/zone logic; `Kill::tick`; `Position`
sync; interpolation; camera) — so the synced `Position` equals the body
translation from before this tick's physics step, and only the body then
advances by the step. -/
theorem physics_step_runs_last (env : Env) (step : Body → Body) (s s1 : GState)
    (h : tick_systems env s = some s1) :
    State.update env step s = some { s1 with body := step s1.body } ∧
    s1.position = s1.body.translation := by
  constructor
  · unfold State.update
    rw [h]
    rfl
  · obtain ⟨t, hpt, hs1⟩ := tick_systems_eq h
    obtain ⟨k, d, c, hpost⟩ := post_chain env t
    rw [hs1, hpost]

/-- C4 (counterexample to the claim as stated): with a physics step that moves
the body one unit right, the code's update (step after the `Position` sync)
and the spec's claimed order (step before the sync) produce different states:
the code leaves `Position` at the pre-step translation (3, 4) while the
claimed order would leave it at the post-step translation (4, 4). -/
theorem physics_step_order_counterexample :
    (State.update quiet_env unit_step base_state).map GState.position =
      some ⟨3, 4⟩ ∧
    (spec_order_update quiet_env unit_step base_state).map GState.position =
      some ⟨4, 4⟩ ∧
    (State.update quiet_env unit_step base_state).map (fun s => s.body.translation) =
      some ⟨4, 4⟩ ∧
    State.update quiet_env unit_step base_state ≠
      spec_order_update quiet_env unit_step base_state := by
  have h1 : State.update quiet_env unit_step base_state =
      some { base_state with
        body := ⟨⟨4, 4⟩, Vec2.zero, Vec2.zero, 0⟩,
        interpolated := ⟨⟨3, 4⟩, ⟨3, 4⟩⟩ } := by
    norm_num [State.update, tick_systems, Player.tick, Player.tick_controls,
      Platformer.tick_controls, Unshaped.tick_controls, Player.kill_detection,
      Player.respawn_dead, Player.morph_check, Player.zone_morph, Morph.FROM_U8,
      Kill.tick, tick_physics, tick_interpolation, Camera.tick,
      Camera.update_current_view, GState.alive, Vec2.magnitude_squared, Vec2.scale,
      Vec2.zero, Vec2.add, Body.apply_force, Body.set_linvel, unit_step, quiet_env,
      quiet_input, base_state, Unshaped.size, Unshaped.RADIUS, Tween.new,
      Camera.new, InterpolatedPosition.new]
  have h2 : spec_order_update quiet_env unit_step base_state =
      some { base_state with
        body := ⟨⟨4, 4⟩, Vec2.zero, Vec2.zero, 0⟩,
        position := ⟨4, 4⟩,
        interpolated := ⟨⟨3, 4⟩, ⟨4, 4⟩⟩ } := by
    norm_num [spec_order_update, Player.tick, Player.tick_controls,
      Platformer.tick_controls, Unshaped.tick_controls, Player.kill_detection,
      Player.respawn_dead, Player.morph_check, Player.zone_morph, Morph.FROM_U8,
      Kill.tick, tick_physics, tick_interpolation, Camera.tick,
      Camera.update_current_view, GState.alive, Vec2.magnitude_squared, Vec2.scale,
      Vec2.zero, Vec2.add, Body.apply_force, Body.set_linvel, unit_step, quiet_env,
      quiet_input, base_state, Unshaped.size, Unshaped.RADIUS, Tween.new,
      Camera.new, InterpolatedPosition.new]
  refine ⟨by rw [h1]; rfl, by rw [h2]; rfl, by rw [h1]; rfl, ?_⟩
  rw [h1, h2]
  intro heq
  simp only [Option.some.injEq] at heq
  have := congrArg GState.position heq
  norm_num [base_state] at this

/-- C4 (witness for the amended theorem): the amended ordering statement at a
concrete state, environment and step function. -/
theorem physics_step_runs_last_witness :
    tick_systems quiet_env base_state =
      some { base_state with interpolated := ⟨⟨3, 4⟩, ⟨3, 4⟩⟩ } ∧
    State.update quiet_env unit_step base_state =
      some { { base_state with interpolated := ⟨⟨3, 4⟩, ⟨3, 4⟩⟩ } with
        body := unit_step { base_state with
          interpolated := ⟨⟨3, 4⟩, ⟨3, 4⟩⟩ }.body } ∧
    ({ base_state with interpolated := ⟨⟨3, 4⟩, ⟨3, 4⟩⟩ } : GState).position =
      ({ base_state with interpolated := ⟨⟨3, 4⟩, ⟨3, 4⟩⟩ } : GState).body.translation := by
  have h : tick_systems quiet_env base_state =
      some { base_state with interpolated := ⟨⟨3, 4⟩, ⟨3, 4⟩⟩ } := by
    norm_num [tick_systems, Player.tick, Player.tick_controls,
      Platformer.tick_controls, Unshaped.tick_controls, Player.kill_detection,
      Player.respawn_dead, Player.morph_check, Player.zone_morph, Morph.FROM_U8,
      Kill.tick, tick_physics, tick_interpolation, Camera.tick,
      Camera.update_current_view, GState.alive, Vec2.magnitude_squared, Vec2.scale,
      Vec2.zero, Vec2.add, Body.apply_force, Body.set_linvel, quiet_env,
      quiet_input, base_state, Unshaped.size, Unshaped.RADIUS, Tween.new,
      Camera.new, InterpolatedPosition.new]
  exact ⟨h, (physics_step_runs_last quiet_env unit_step base_state _ h).1,
    (physics_step_runs_last quiet_env unit_step base_state _ h).2⟩

/-- C5 (amended): no system that `tick_systems` runs ever mutates the
player's checkpoint after spawn (nor the player's `RespawnPosition`, nor the
checkpoint entity's rows): `Trigger::tick` and `Checkpoint::tick` are not part
of the tick pipeline, and the `Checkpoint::tick` code would write the separate
`RespawnPosition` component, which the respawn path never reads. -/
theorem checkpoint_never_mutated (env : Env) (s s' : GState)
    (h : tick_systems env s = some s') :
    s'.checkpoint = s.checkpoint ∧
    s'.respawn_position = s.respawn_position ∧
    s'.checkpoint_entity_triggered = s.checkpoint_entity_triggered ∧
    s'.checkpoint_entity_position = s.checkpoint_entity_position := by
  obtain ⟨t, hpt, hs'⟩ := tick_systems_eq h
  obtain ⟨b, pl, hc, _, _, _⟩ := tick_controls_frame env s
  rw [hc] at hpt
  unfold Player.tick at hpt
  obtain ⟨k, hk⟩ := kill_detection_frame env { s with body := b, platformer := pl }
  rw [hk] at hpt
  obtain ⟨ip, b2, d2, sa2, hresp, _, _⟩ :=
    respawn_dead_frame { s with body := b, platformer := pl, kill := k }
  rw [hresp] at hpt
  have hf := morph_check_frame hpt
  obtain ⟨k3, d3, c3, hpost⟩ := post_chain env t
  rw [hpost] at hs'
  refine ⟨?_, ?_, ?_, ?_⟩
  · rw [hs']; exact hf.1
  · rw [hs']; exact hf.2.2.2.2.2.2.2.2.2.2.1
  · rw [hs']; exact hf.2.2.2.2.2.2.2.2.2.1
  · rw [hs']; exact hf.2.2.2.2.2.2.2.2.1

/-- C5 (counterexample to the claim as stated): a full tick on a state whose
checkpoint entity holds a pending `Triggered` with the set-respawn-position
method, sourced from the player, leaves the player's checkpoint at (1, 2) —
not at the checkpoint entity's position (5, 6) — leaves the `Triggered`
pending, and leaves the player without any `RespawnPosition`; the unwired
`Checkpoint::tick` itself would panic on this state, because the player has no
`RespawnPosition` component to write. -/
theorem checkpoint_trigger_counterexample :
    Checkpoint.tick base_state = none ∧
    (tick_systems quiet_env base_state).map GState.checkpoint = some ⟨1, 2⟩ ∧
    (tick_systems quiet_env base_state).map GState.checkpoint_entity_triggered =
      some (some ⟨Checkpoint.SET_RESPAWN_POSITION, 7, 0⟩) ∧
    (tick_systems quiet_env base_state).map GState.respawn_position = some none ∧
    base_state.checkpoint_entity_position = ⟨5, 6⟩ ∧
    (⟨1, 2⟩ : Vec2) ≠ ⟨5, 6⟩ := by
  have h : tick_systems quiet_env base_state =
      some { base_state with interpolated := ⟨⟨3, 4⟩, ⟨3, 4⟩⟩ } := by
    norm_num [tick_systems, Player.tick, Player.tick_controls,
      Platformer.tick_controls, Unshaped.tick_controls, Player.kill_detection,
      Player.respawn_dead, Player.morph_check, Player.zone_morph, Morph.FROM_U8,
      Kill.tick, tick_physics, tick_interpolation, Camera.tick,
      Camera.update_current_view, GState.alive, Vec2.magnitude_squared, Vec2.scale,
      Vec2.zero, Vec2.add, Body.apply_force, Body.set_linvel, quiet_env,
      quiet_input, base_state, Unshaped.size, Unshaped.RADIUS, Tween.new,
      Camera.new, InterpolatedPosition.new]
  refine ⟨rfl, ?_, ?_, ?_, rfl, ?_⟩
  · rw [h]; rfl
  · rw [h]; rfl
  · rw [h]; rfl
  · intro hvec
    have := congrArg Vec2.x hvec
    norm_num at this

/-- C5 (witness for the amended theorem): the checkpoint-preservation theorem
applied at a concrete state and environment. -/
theorem checkpoint_never_mutated_witness :
    tick_systems quiet_env base_state =
      some { base_state with interpolated := ⟨⟨3, 4⟩, ⟨3, 4⟩⟩ } ∧
    ({ base_state with interpolated := ⟨⟨3, 4⟩, ⟨3, 4⟩⟩ } : GState).checkpoint =
      base_state.checkpoint := by
  have h : tick_systems quiet_env base_state =
      some { base_state with interpolated := ⟨⟨3, 4⟩, ⟨3, 4⟩⟩ } := by
    norm_num [tick_systems, Player.tick, Player.tick_controls,
      Platformer.tick_controls, Unshaped.tick_controls, Player.kill_detection,
      Player.respawn_dead, Player.morph_check, Player.zone_morph, Morph.FROM_U8,
      Kill.tick, tick_physics, tick_interpolation, Camera.tick,
      Camera.update_current_view, GState.alive, Vec2.magnitude_squared, Vec2.scale,
      Vec2.zero, Vec2.add, Body.apply_force, Body.set_linvel, quiet_env,
      quiet_input, base_state, Unshaped.size, Unshaped.RADIUS, Tween.new,
      Camera.new, InterpolatedPosition.new]
  exact ⟨h, (checkpoint_never_mutated quiet_env base_state _ h).1⟩

/-- C10: under the symmetric admissibility predicate, a trigger collider as
spawned (memberships TRIGGERS, filter PLAYER) never admits the player collider
as spawned (memberships PLAYER, filter SOLIDS), because TRIGGERS does not
intersect the player's SOLIDS filter; TRIGGERS is also absent from
`CollisionGroups::ALL`, the filter used by solid colliders. -/
theorem trigger_never_sees_player :
    queries_see triggerColliderGroups playerColliderGroups = false ∧
    CollisionGroups.TRIGGERS &&& CollisionGroups.SOLIDS = 0 ∧
    CollisionGroups.TRIGGERS &&& CollisionGroups.ALL = 0 := by
  refine ⟨by decide, by decide, by decide⟩
